import Mathlib

/-!
# Surfe_API orchestration layer (surfe_lib/surfe_api.cpp)

A shallow embedding of the state machine of `Surfe_API`: the flags that track
whether the interpolant is stale, the constraint store held by the active
modelling method, the parameter setters, the solve pipeline, point and grid
evaluation and the regular-grid constructors.

Conventions of the embedding

* A C++ `double` is a rational (`Dbl`); infinities and NaN are outside the
  model. The result of an operation is rounded as IEEE-754 rounds it
  (`round_to_double`) where a property turns on it: in the sums of
  AddPlanarConstraintwAzimuthDipPolarity and in the arithmetic of the
  BuildRegularGrid overloads. Elsewhere (the coordinates of the grid points,
  which VTK computes) arithmetic on doubles is exact.
* A member function is a function from the object state to an `Outcome`:
  what the call produced (a value, a thrown exception, or undefined
  behaviour) together with the object state it left behind.
* Code that lives in other translation units (the file readers, the GRBF
  method classes, the dialog, the VTK toolkit) is taken as a parameter, the
  record `Collaborators`.
-/

namespace Surfe

/-- A C++ double, modelled as an exact rational number. -/
abbrev Dbl := ℚ

/-! ## Exceptions -/

/-- The exception objects of namespace GRBF_Exceptions used by surfe_api.cpp;
`library n` stands for any exception raised inside a collaborator. -/
inductive GRBF_Exceptions where
  | grbf_method_is_null
  | unknown_modelling_mode
  | unknown_rbf
  | interpolant_needs_update
  | missing_interpolant
  | no_sgrid_exists
  | problem_computing_grid
  | problem_computing_spatial_parameters
  | library (code : Nat)
  deriving DecidableEq, Repr

/-- What leaves a member function by `throw`: the exception object itself, or
a `SurfeExceptions` object built from a caught exception. -/
inductive Thrown where
  | plain (e : GRBF_Exceptions)
  | SurfeExceptions (e : GRBF_Exceptions)
  deriving DecidableEq, Repr

/-- How a call ended. `undefined` is C++ undefined behaviour (a double that
does not fit the `int` it is converted to, signed overflow). -/
inductive Result (α : Type) where
  | returned (a : α)
  | threw (e : Thrown)
  | undefined
  deriving DecidableEq, Repr

/-! ## Parameters and constraints -/

/-- Parameter_Types::ModelType; `unrecognised` is any value of the enum that
is none of the five enumerators (the final else of get_method). -/
inductive ModelType where
  | Single_surface
  | Lajaunie_approach
  | Stratigraphic_horizons
  | Vector_field
  | Continuous_property
  | unrecognised
  deriving DecidableEq, Repr

/-- Parameter_Types::RBF, the enumerators named in SetRBFKernel. -/
inductive RBF where
  | Cubic
  | WendlandC2
  | R
  | Gaussian
  | MQ
  | TPS
  | IMQ
  | MaternC4
  deriving DecidableEq, Repr

/-- The fields of `Parameters` that surfe_api.cpp reads or writes. -/
structure Parameters where
  model_type : ModelType
  basis_type : RBF
  shape_parameter : Dbl
  polynomial_order : Int
  model_global_anisotropy : Bool
  use_regression_smoothing : Bool
  smoothing_amount : Dbl
  use_greedy : Bool
  interface_uncertainty : Dbl
  angular_uncertainty : Dbl
  use_interface : Bool
  use_inequality : Bool
  use_planar : Bool
  use_tangent : Bool
  deriving DecidableEq, Repr

/-- Interface constraint: `Interface(x, y, z, level)`. -/
structure Interface where
  x : Dbl
  y : Dbl
  z : Dbl
  level : Dbl
  deriving DecidableEq, Repr

/-- Inequality constraint: `Inequality(x, y, z, level)`. -/
structure Inequality where
  x : Dbl
  y : Dbl
  z : Dbl
  level : Dbl
  deriving DecidableEq, Repr

/-- Planar constraint: the coordinates and the three further constructor
arguments, in the order they are passed to `Planar(x, y, z, a, b, c)`. -/
structure Planar where
  x : Dbl
  y : Dbl
  z : Dbl
  a : Dbl
  b : Dbl
  c : Dbl
  deriving DecidableEq, Repr

/-- Tangent constraint: `Tangent(x, y, z, tx, ty, tz)`. -/
structure Tangent where
  x : Dbl
  y : Dbl
  z : Dbl
  tx : Dbl
  ty : Dbl
  tz : Dbl
  deriving DecidableEq, Repr

/-- The constraint store of a method: `method_->constraints`. -/
structure Constraints where
  itrface : List Interface
  inequality : List Inequality
  planar : List Planar
  tangent : List Tangent
  deriving DecidableEq, Repr

/-- A query point `Point(x, y, z)`. -/
structure Point where
  x : Dbl
  y : Dbl
  z : Dbl
  deriving DecidableEq, Repr

/-- Modelled from the spec: the solved state inside a method object (section 3,
Interpolant: basis weights and polynomial coefficients). The class that holds
it is not among the sources. -/
structure Interpolant where
  weights : List Dbl
  coefficients : List Dbl
  deriving DecidableEq, Repr

/-- The object behind `method_`: the members surfe_api.cpp touches
(ui_parameters, constraints, interface_test_points) and the solved state the
solver stages leave in it. -/
structure GRBF_Modelling_Methods where
  ui_parameters : Parameters
  constraints : Constraints
  interface_test_points : List Interface
  solution : Option Interpolant
  deriving DecidableEq, Repr

/-- The member `input_`: the parameters and the four constraint file names. -/
structure InputImpl where
  parameters : Parameters
  interface_file : String
  inequality_file : String
  planar_file : String
  tangent_file : String
  deriving DecidableEq, Repr

/-- SpatialParameters, as filled by compute_constraint_bounds_and_resolution. -/
structure SpatialParameters where
  resolution : Dbl
  xmin : Dbl
  xmax : Dbl
  ymin : Dbl
  ymax : Dbl
  zmin : Dbl
  zmax : Dbl
  deriving DecidableEq, Repr

/-- The six bounds that vtkPoints::GetBounds fills. -/
structure Bounds where
  xmin : Dbl
  xmax : Dbl
  ymin : Dbl
  ymax : Dbl
  zmin : Dbl
  zmax : Dbl
  deriving DecidableEq, Repr

/-! ## The regular grid -/

/-- The part of a vtkImageData that surfe_api.cpp sets and reads: dimensions,
origin, spacing and the point scalars installed by GetEvaluatedGrid. -/
structure vtkImageData where
  nx : Int
  ny : Int
  nz : Int
  origin : Point
  spacing : Dbl
  scalars : Option (List Dbl)
  deriving DecidableEq, Repr

/-! ## Collaborators -/

/-- What a constraint file reader does: it returns records, or it throws. A
thrown exception either carries a nested exception (`nested = true`), which
`std::rethrow_if_nested` throws on, or it does not, and the handler of
build_constraints_from_input_files swallows it. -/
inductive ReaderResult (α : Type) where
  | records (cs : List α)
  | throws (e : GRBF_Exceptions) (nested : Bool)
  deriving DecidableEq, Repr

/-- What a stage of the method object does: the object as the stage left it,
and the exception it threw, if any. -/
structure StageResult where
  method : GRBF_Modelling_Methods
  thrown : Option GRBF_Exceptions
  deriving DecidableEq, Repr

/-- The code outside surfe_api.cpp that the API calls. -/
structure Collaborators where
  get_file_extension : String → String
  csv_interface : String → ReaderResult Interface
  vtk_interface : String → ReaderResult Interface
  csv_inequality : String → ReaderResult Inequality
  vtk_inequality : String → ReaderResult Inequality
  csv_planar : String → ReaderResult Planar
  vtk_planar : String → ReaderResult Planar
  csv_tangent : String → ReaderResult Tangent
  vtk_tangent : String → ReaderResult Tangent
  GetDialogParameters : InputImpl
  remove_collocated_constraints : GRBF_Modelling_Methods → StageResult
  process_input_data : GRBF_Modelling_Methods → StageResult
  get_method_parameters : GRBF_Modelling_Methods → StageResult
  setup_basis_functions : GRBF_Modelling_Methods → StageResult
  setup_system_solver : GRBF_Modelling_Methods → StageResult
  /-- Modelled from the spec: the evaluator of the method object, which is not
  among the sources, reads the object and does not write to it (sections 3 to
  5: the Interpolant is immutable, the value at a point is a formula of the
  Interpolant and the point, an evaluation reads only the Interpolant). -/
  eval_scalar_interpolant_at_point : GRBF_Modelling_Methods → Point → Dbl
  /-- Modelled from the spec: the vector evaluator of the method object, read-only
  as the scalar one. -/
  eval_vector_interpolant_at_point : GRBF_Modelling_Methods → Point → Dbl × Dbl × Dbl
  spatial_metrics : List Point → Option SpatialParameters
  convert_constraints_to_points : Constraints → List Point
  GetBounds : List Point → Bounds
  uninitialised_tuple : Nat → Dbl

/-! ## The API object -/

/-- The data members of Surfe_API. -/
structure Surfe_API where
  input_ : InputImpl
  method_ : Option GRBF_Modelling_Methods
  grid_ : Option vtkImageData
  have_interpolant_ : Bool
  have_method_ : Bool
  evaluation_completed_ : Bool
  parameters_changed_ : Bool
  constraint_files_changed_ : Bool
  constraints_changed_ : Bool
  deriving DecidableEq, Repr

/-- A finished call: how it ended and the object state it left. -/
structure Outcome (α : Type) where
  result : Result α
  state : Surfe_API
  deriving DecidableEq, Repr

/-! ## Method creation and constraint ingestion -/

/-- Modelled from the spec: the constructors of the five method classes are
not among the sources. The new object keeps a copy of the parameters it is
constructed from, holds no constraints and has no solution yet (section 3: the
store is populated by ingestion or explicit addition, an interpolant is
created only by a solve). -/
def new_method (params : Parameters) : GRBF_Modelling_Methods :=
  { ui_parameters := params
    constraints := { itrface := [], inequality := [], planar := [], tangent := [] }
    interface_test_points := []
    solution := none }

/-- Surfe_API::get_method: one class per model type, an exception for any
other value. -/
def get_method (params : Parameters) : Except GRBF_Exceptions GRBF_Modelling_Methods :=
  if params.model_type = ModelType.Single_surface then .ok (new_method params)
  else if params.model_type = ModelType.Lajaunie_approach then .ok (new_method params)
  else if params.model_type = ModelType.Stratigraphic_horizons then .ok (new_method params)
  else if params.model_type = ModelType.Vector_field then .ok (new_method params)
  else if params.model_type = ModelType.Continuous_property then .ok (new_method params)
  else .error GRBF_Exceptions.unknown_modelling_mode

/-- The reader chosen for an extension: CSV for "csv", VTK for "vtp" or "vtk",
and no reader at all (the local vector stays empty) otherwise. -/
def select_reader {α : Type} (csv vtk : String → ReaderResult α) (extension file : String) :
    ReaderResult α :=
  if extension = "csv" then csv file
  else if extension = "vtp" ∨ extension = "vtk" then vtk file
  else ReaderResult.records []

/-- The state of the try block of build_constraints_from_input_files: the
method object so far and the exception that ended the block, if any. -/
structure LoadState where
  method : GRBF_Modelling_Methods
  thrown : Option (GRBF_Exceptions × Bool)
  deriving DecidableEq, Repr

/-- Lines 37-54: the interface file. -/
def load_interface (C : Collaborators) (input : InputImpl) (m : GRBF_Modelling_Methods) :
    LoadState :=
  if input.interface_file ≠ "" then
    match select_reader C.csv_interface C.vtk_interface
        (C.get_file_extension input.interface_file) input.interface_file with
    | .records cs =>
      { method := { m with ui_parameters := { m.ui_parameters with use_interface := true }
                           constraints := { m.constraints with itrface := cs } }
        thrown := none }
    | .throws e n => { method := m, thrown := some (e, n) }
  else { method := m, thrown := none }

/-- Lines 55-72: the inequality file. -/
def load_inequality (C : Collaborators) (input : InputImpl) (m : GRBF_Modelling_Methods) :
    LoadState :=
  if input.inequality_file ≠ "" then
    match select_reader C.csv_inequality C.vtk_inequality
        (C.get_file_extension input.inequality_file) input.inequality_file with
    | .records cs =>
      { method := { m with ui_parameters := { m.ui_parameters with use_inequality := true }
                           constraints := { m.constraints with inequality := cs } }
        thrown := none }
    | .throws e n => { method := m, thrown := some (e, n) }
  else { method := m, thrown := none }

/-- Lines 74-91: the planar file. -/
def load_planar (C : Collaborators) (input : InputImpl) (m : GRBF_Modelling_Methods) :
    LoadState :=
  if input.planar_file ≠ "" then
    match select_reader C.csv_planar C.vtk_planar
        (C.get_file_extension input.planar_file) input.planar_file with
    | .records cs =>
      { method := { m with ui_parameters := { m.ui_parameters with use_planar := true }
                           constraints := { m.constraints with planar := cs } }
        thrown := none }
    | .throws e n => { method := m, thrown := some (e, n) }
  else { method := m, thrown := none }

/-- Lines 92-109: the tangent file. The extension is taken from
`input_.planar_file`, as in the source. -/
def load_tangent (C : Collaborators) (input : InputImpl) (m : GRBF_Modelling_Methods) :
    LoadState :=
  if input.tangent_file ≠ "" then
    match select_reader C.csv_tangent C.vtk_tangent
        (C.get_file_extension input.planar_file) input.tangent_file with
    | .records cs =>
      { method := { m with ui_parameters := { m.ui_parameters with use_tangent := true }
                           constraints := { m.constraints with tangent := cs } }
        thrown := none }
    | .throws e n => { method := m, thrown := some (e, n) }
  else { method := m, thrown := none }

/-- Sequencing inside the try block: a thrown exception skips what follows. -/
def LoadState.andThen (st : LoadState) (f : GRBF_Modelling_Methods → LoadState) : LoadState :=
  match st.thrown with
  | some _ => st
  | none => f st.method

/-- The try block of build_constraints_from_input_files, lines 37-109. -/
def load_all (C : Collaborators) (input : InputImpl) (m : GRBF_Modelling_Methods) : LoadState :=
  (((load_interface C input m).andThen (load_inequality C input)).andThen
    (load_planar C input)).andThen (load_tangent C input)

/-- Surfe_API::build_constraints_from_input_files. The handler rethrows only
a nested exception; after any other exception control reaches lines 116-117
as it does after a successful load. -/
def build_constraints_from_input_files (C : Collaborators) (s : Surfe_API) : Outcome Unit :=
  match s.method_ with
  | none => { result := .threw (.plain .grbf_method_is_null), state := s }
  | some m =>
    let st := load_all C s.input_ m
    match st.thrown with
    | some (e, true) => { result := .threw (.plain e), state := { s with method_ := some st.method } }
    | _ =>
      { result := .returned ()
        state := { s with method_ := some st.method
                          constraint_files_changed_ := false
                          constraints_changed_ := true } }

/-! ## Constructors and reloads -/

/-- A default-constructed `input_`: empty file names; `p0` is what the
default constructor of Parameters yields. -/
def default_input (p0 : Parameters) : InputImpl :=
  { parameters := p0, interface_file := "", inequality_file := "", planar_file := "",
    tangent_file := "" }

/-- Surfe_API::Surfe_API(), lines 166-177. -/
def Surfe_API.new (p0 : Parameters) : Surfe_API :=
  { input_ := default_input p0
    method_ := none
    grid_ := none
    have_interpolant_ := false
    have_method_ := false
    evaluation_completed_ := false
    parameters_changed_ := false
    constraint_files_changed_ := true
    constraints_changed_ := false }

/-- Surfe_API::Surfe_API(const Parameters&), lines 179-204. A constructor
that throws leaves no object. -/
def Surfe_API.new_with (C : Collaborators) (params : Parameters) : Except Thrown Surfe_API :=
  let s0 : Surfe_API :=
    { input_ := default_input params
      method_ := none
      grid_ := none
      have_interpolant_ := false
      have_method_ := true
      evaluation_completed_ := false
      parameters_changed_ := true
      constraint_files_changed_ := true
      constraints_changed_ := false }
  match get_method s0.input_.parameters with
  | .error e => .error (.plain e)
  | .ok m =>
    let o := build_constraints_from_input_files C { s0 with method_ := some m }
    match o.result with
    | .threw e => .error e
    | _ => .ok { o.state with evaluation_completed_ := false }

/-- The handler of the reloads and of ComputeInterpolant: a caught exception
leaves as a SurfeExceptions object. -/
def as_SurfeExceptions : Thrown → Thrown
  | .plain e => .SurfeExceptions e
  | .SurfeExceptions e => .SurfeExceptions e

/-- Lines 238-253, shared by the two reloads: drop the method, create a new
one from `input_.parameters`, load the files. -/
def recreate_and_load (C : Collaborators) (s : Surfe_API) : Outcome Unit :=
  let s1 := { s with method_ := none }
  match get_method s1.input_.parameters with
  | .error e => { result := .threw (.plain e), state := s1 }
  | .ok m =>
    let o := build_constraints_from_input_files C { s1 with method_ := some m }
    match o.result with
    | .threw e => { result := .threw (as_SurfeExceptions e), state := o.state }
    | _ => o

/-- Surfe_API::GetParametersAndConstraints, lines 206-231. -/
def GetParametersAndConstraints (C : Collaborators) (s : Surfe_API) : Outcome Unit :=
  recreate_and_load C { s with input_ := C.GetDialogParameters
                               parameters_changed_ := true
                               constraint_files_changed_ := true }

/-- Surfe_API::LoadConstraintsFromFiles, lines 233-254. -/
def LoadConstraintsFromFiles (C : Collaborators) (s : Surfe_API) : Outcome Unit :=
  recreate_and_load C s

/-! ## Adding single constraints -/

/-- The common shape of the Add functions: the null check, then the update
of the method object, then `constraints_changed_` and `evaluation_completed_`. -/
def add_constraint (s : Surfe_API) (f : GRBF_Modelling_Methods → GRBF_Modelling_Methods) :
    Outcome Unit :=
  match s.method_ with
  | none => { result := .threw (.plain .grbf_method_is_null), state := s }
  | some m =>
    { result := .returned ()
      state := { s with method_ := some (f m)
                        constraints_changed_ := true
                        evaluation_completed_ := false } }

/-- Surfe_API::AddInterfaceConstraint, lines 256-267. -/
def AddInterfaceConstraint (s : Surfe_API) (x y z level : Dbl) : Outcome Unit :=
  add_constraint s fun m =>
    { m with constraints := { m.constraints with
               itrface := m.constraints.itrface ++ [{ x := x, y := y, z := z, level := level }] }
             ui_parameters := { m.ui_parameters with use_interface := true } }

/-- Surfe_API::AddPlanarConstraintwNormal, lines 269-280. -/
def AddPlanarConstraintwNormal (s : Surfe_API) (x y z nx ny nz : Dbl) : Outcome Unit :=
  add_constraint s fun m =>
    { m with constraints := { m.constraints with
               planar := m.constraints.planar ++ [{ x := x, y := y, z := z, a := nx, b := ny, c := nz }] }
             ui_parameters := { m.ui_parameters with use_planar := true } }

/-- Surfe_API::AddPlanarConstraintwStrikeDipPolarity, lines 282-293: the
constructor call is `Planar(x, y, z, dip, strike, polarity)`. -/
def AddPlanarConstraintwStrikeDipPolarity (s : Surfe_API) (x y z strike dip polarity : Dbl) :
    Outcome Unit :=
  add_constraint s fun m =>
    { m with constraints := { m.constraints with
               planar := m.constraints.planar ++
                 [{ x := x, y := y, z := z, a := dip, b := strike, c := polarity }] }
             ui_parameters := { m.ui_parameters with use_planar := true } }

/-- The integer part of the binary logarithm of `n` (0 for `n = 0`), by
halving; `fuel` bounds the number of halvings. -/
def log2_floor : Nat → Nat → Nat
  | 0, _ => 0
  | fuel + 1, n => if n < 2 then 0 else log2_floor fuel (n / 2) + 1

/-- The power of two with an integer exponent. -/
def pow2 (k : Int) : Dbl :=
  if 0 ≤ k then ((2 ^ k.toNat : Nat) : Dbl) else 1 / ((2 ^ (-k).toNat : Nat) : Dbl)

/-- The binary exponent of a rational other than 0: the `e` with
2^e <= |q| < 2^(e+1). It is the difference of the logarithms of numerator
and denominator, or one less. -/
def binade (q : Dbl) : Int :=
  if pow2 ((log2_floor q.num.natAbs q.num.natAbs : Int) - (log2_floor q.den q.den : Int)) ≤ |q| then
    (log2_floor q.num.natAbs q.num.natAbs : Int) - (log2_floor q.den q.den : Int)
  else (log2_floor q.num.natAbs q.num.natAbs : Int) - (log2_floor q.den q.den : Int) - 1

/-- Rounding to the nearest integer, a tie going to the even one. -/
def round_half_even (t : Dbl) : Int :=
  if t - ⌊t⌋ < 1 / 2 then ⌊t⌋
  else if 1 / 2 < t - ⌊t⌋ then ⌊t⌋ + 1
  else if ⌊t⌋ % 2 = 0 then ⌊t⌋ else ⌊t⌋ + 1

/-- The result of a double operation whose exact value is `q`: IEEE-754
binary64 rounding to nearest, ties to even, that is `q` rounded to 53
significant bits (results in the normal range; no overflow, no subnormals). -/
def round_to_double (q : Dbl) : Dbl :=
  if q = 0 then 0
  else (round_half_even (q / pow2 (binade q - 52)) : Dbl) * pow2 (binade q - 52)

/-- The double operation `a - b`: the exact difference, rounded. -/
def double_sub (a b : Dbl) : Dbl :=
  round_to_double (a - b)

/-- The double operation `a + b`: the exact sum, rounded. -/
def double_add (a b : Dbl) : Dbl :=
  round_to_double (a + b)

/-- The double operation `a * b`: the exact product, rounded. -/
def double_mul (a b : Dbl) : Dbl :=
  round_to_double (a * b)

/-- The double operation `a / b` for a divisor other than 0: the exact
quotient, rounded. -/
def double_div (a b : Dbl) : Dbl :=
  round_to_double (a / b)

/-- Lines 300-305: the strike computed from the azimuth, each of the two
sums rounded as double arithmetic rounds it. -/
def strike_of_azimuth (azimuth : Dbl) : Dbl :=
  if azimuth ≥ 90 then round_to_double (azimuth - 90) else round_to_double (azimuth + 270)

/-- Surfe_API::AddPlanarConstraintwAzimuthDipPolarity, lines 295-312. -/
def AddPlanarConstraintwAzimuthDipPolarity (s : Surfe_API) (x y z azimuth dip polarity : Dbl) :
    Outcome Unit :=
  let strike : Dbl := strike_of_azimuth azimuth
  add_constraint s fun m =>
    { m with constraints := { m.constraints with
               planar := m.constraints.planar ++
                 [{ x := x, y := y, z := z, a := dip, b := strike, c := polarity }] }
             ui_parameters := { m.ui_parameters with use_planar := true } }

/-- Surfe_API::AddTangentConstraint, lines 314-325. -/
def AddTangentConstraint (s : Surfe_API) (x y z tx ty tz : Dbl) : Outcome Unit :=
  add_constraint s fun m =>
    { m with constraints := { m.constraints with
               tangent := m.constraints.tangent ++ [{ x := x, y := y, z := z, tx := tx, ty := ty, tz := tz }] }
             ui_parameters := { m.ui_parameters with use_tangent := true } }

/-- Surfe_API::AddInequalityConstraint, lines 327-338. -/
def AddInequalityConstraint (s : Surfe_API) (x y z level : Dbl) : Outcome Unit :=
  add_constraint s fun m =>
    { m with constraints := { m.constraints with
               inequality := m.constraints.inequality ++ [{ x := x, y := y, z := z, level := level }] }
             ui_parameters := { m.ui_parameters with use_inequality := true } }

/-! ## The solve -/

/-- One stage of ComputeInterpolant, a call through `method_`: the object is
left as the stage left it; an exception thrown inside a try block leaves as
SurfeExceptions, one thrown outside leaves as it is. -/
def run_stage (s : Surfe_API) (stage : GRBF_Modelling_Methods → StageResult) (in_try : Bool)
    (next : Surfe_API → Outcome Unit) : Outcome Unit :=
  match s.method_ with
  | none => { result := .undefined, state := s }
  | some m =>
    let s1 := { s with method_ := some (stage m).method }
    match (stage m).thrown with
    | some e => { result := .threw (if in_try then .SurfeExceptions e else .plain e), state := s1 }
    | none => next s1

/-- Lines 358-396 of ComputeInterpolant: the five stages of the method
object and, once all have returned, the three flag assignments. -/
def solve_stages (C : Collaborators) (s : Surfe_API) : Outcome Unit :=
  run_stage s C.remove_collocated_constraints false fun s1 =>
  run_stage s1 C.process_input_data true fun s2 =>
  run_stage s2 C.get_method_parameters false fun s3 =>
  run_stage s3 C.setup_basis_functions true fun s4 =>
  run_stage s4 C.setup_system_solver true fun s5 =>
  { result := .returned ()
    state := { s5 with have_interpolant_ := true
                       constraints_changed_ := false
                       parameters_changed_ := false } }

/-- Surfe_API::ComputeInterpolant, lines 340-398. -/
def ComputeInterpolant (C : Collaborators) (s : Surfe_API) : Outcome Unit :=
  match s.method_ with
  | none => { result := .threw (.plain .grbf_method_is_null), state := s }
  | some _ =>
    if s.constraint_files_changed_ then
      let o := build_constraints_from_input_files C s
      match o.result with
      | .threw e => { result := .threw (as_SurfeExceptions e), state := o.state }
      | _ => solve_stages C o.state
    else solve_stages C s

/-! ## Parameter setters -/

/-- Surfe_API::SetModellingMode, lines 400-418. -/
def SetModellingMode (s : Surfe_API) (mode : Int) : Outcome Unit :=
  let set (t : ModelType) : Outcome Unit :=
    { result := .returned ()
      state := { s with input_ := { s.input_ with
                          parameters := { s.input_.parameters with model_type := t } }
                        parameters_changed_ := true
                        evaluation_completed_ := false } }
  if mode = 1 then set .Single_surface
  else if mode = 2 then set .Lajaunie_approach
  else if mode = 3 then set .Vector_field
  else if mode = 4 then set .Stratigraphic_horizons
  else if mode = 5 then set .Continuous_property
  else { result := .threw (.plain .unknown_modelling_mode), state := s }

/-- The setters that write to the method object: the null check, the
update, then `parameters_changed_` and `evaluation_completed_`. -/
def set_on_method (s : Surfe_API) (f : Parameters → Parameters) : Outcome Unit :=
  match s.method_ with
  | none => { result := .threw (.plain .grbf_method_is_null), state := s }
  | some m =>
    { result := .returned ()
      state := { s with method_ := some { m with ui_parameters := f m.ui_parameters }
                        parameters_changed_ := true
                        evaluation_completed_ := false } }

/-- The setters that write to `input_.parameters`. -/
def set_on_input (s : Surfe_API) (f : Parameters → Parameters) : Outcome Unit :=
  { result := .returned ()
    state := { s with input_ := { s.input_ with parameters := f s.input_.parameters }
                      parameters_changed_ := true
                      evaluation_completed_ := false } }

/-- Surfe_API::SetRegressionSmoothing, lines 420-430: the switch argument is
not read, the stored flag is set to true. -/
def SetRegressionSmoothing (s : Surfe_API) (_use_regression_smoothing : Bool) (amount : Dbl) :
    Outcome Unit :=
  set_on_method s fun p => { p with use_regression_smoothing := true, smoothing_amount := amount }

/-- Surfe_API::SetGreedyAlgorithm, lines 432-443: the switch argument is not
read, the stored flag is set to true. -/
def SetGreedyAlgorithm (s : Surfe_API) (_use_greedy : Bool)
    (interface_uncertainty angular_uncertainty : Dbl) : Outcome Unit :=
  set_on_method s fun p =>
    { p with use_greedy := true
             interface_uncertainty := interface_uncertainty
             angular_uncertainty := angular_uncertainty }

/-- Surfe_API::SetRBFKernel(const Parameter_Types::RBF&), lines 445-454. -/
def SetRBFKernel (s : Surfe_API) (rbf : RBF) : Outcome Unit :=
  set_on_method s fun p => { p with basis_type := rbf }

/-- The strcmp chain of SetRBFKernel(const char*), lines 458-475. -/
def rbf_of_name (rbf_name : String) : Option RBF :=
  if rbf_name = "r3" then some .Cubic
  else if rbf_name = "WendlandC2" then some .WendlandC2
  else if rbf_name = "r" then some .R
  else if rbf_name = "Gaussian" then some .Gaussian
  else if rbf_name = "Multiquadratics" then some .MQ
  else if rbf_name = "Thin Plate Spline" then some .TPS
  else if rbf_name = "Inverse Multiquadratics" then some .IMQ
  else if rbf_name = "MaternC4" then some .MaternC4
  else none

/-- Surfe_API::SetRBFKernel(const char*), lines 456-479. -/
def SetRBFKernel_name (s : Surfe_API) (rbf_name : String) : Outcome Unit :=
  match rbf_of_name rbf_name with
  | some k => set_on_input s fun p => { p with basis_type := k }
  | none => { result := .threw (.plain .unknown_rbf), state := s }

/-- Surfe_API::SetRBFShapeParameter, lines 481-487. -/
def SetRBFShapeParameter (s : Surfe_API) (shape_param : Dbl) : Outcome Unit :=
  set_on_input s fun p => { p with shape_parameter := shape_param }

/-- Surfe_API::SetPolynomialOrder, lines 489-495. -/
def SetPolynomialOrder (s : Surfe_API) (poly_order : Int) : Outcome Unit :=
  set_on_input s fun p => { p with polynomial_order := poly_order }

/-- Surfe_API::SetGlobalAnisotropy, lines 497-503. -/
def SetGlobalAnisotropy (s : Surfe_API) (g_anisotropy : Bool) : Outcome Unit :=
  set_on_input s fun p => { p with model_global_anisotropy := g_anisotropy }

/-- Surfe_API::SetRestrictedRange, lines 506-514: the switch is stored in
`use_regression_smoothing`. -/
def SetRestrictedRange (s : Surfe_API) (use_restricted_range : Bool)
    (interface_uncertainty angular_uncertainty : Dbl) : Outcome Unit :=
  set_on_input s fun p =>
    { p with use_regression_smoothing := use_restricted_range
             interface_uncertainty := interface_uncertainty
             angular_uncertainty := angular_uncertainty }

/-- Surfe_API::SetInterfaceUncertainty, lines 516-522. -/
def SetInterfaceUncertainty (s : Surfe_API) (interface_uncertainty : Dbl) : Outcome Unit :=
  set_on_input s fun p => { p with interface_uncertainty := interface_uncertainty }

/-- Surfe_API::SetAngularUncertainty, lines 524-530. -/
def SetAngularUncertainty (s : Surfe_API) (angular_uncertainty : Dbl) : Outcome Unit :=
  set_on_input s fun p => { p with angular_uncertainty := angular_uncertainty }

/-- The four Set...DataFile functions, lines 532-566: the file name, then the
three flags. -/
def set_data_file (s : Surfe_API) (f : InputImpl → InputImpl) : Outcome Unit :=
  { result := .returned ()
    state := { s with input_ := f s.input_
                      constraint_files_changed_ := true
                      constraints_changed_ := true
                      evaluation_completed_ := false } }

/-- Surfe_API::SetInterfaceDataFile. -/
def SetInterfaceDataFile (s : Surfe_API) (interfaceFile : String) : Outcome Unit :=
  set_data_file s fun i => { i with interface_file := interfaceFile }

/-- Surfe_API::SetPlanarDataFile. -/
def SetPlanarDataFile (s : Surfe_API) (planarFile : String) : Outcome Unit :=
  set_data_file s fun i => { i with planar_file := planarFile }

/-- Surfe_API::SetTangentDataFile. -/
def SetTangentDataFile (s : Surfe_API) (tangentFile : String) : Outcome Unit :=
  set_data_file s fun i => { i with tangent_file := tangentFile }

/-- Surfe_API::SetInequalityDataFile. -/
def SetInequalityDataFile (s : Surfe_API) (inequalityFile : String) : Outcome Unit :=
  set_data_file s fun i => { i with inequality_file := inequalityFile }

/-! ## Point evaluation -/

/-- Surfe_API::EvaluateInterpolantAtPoint, lines 568-586. -/
def EvaluateInterpolantAtPoint (C : Collaborators) (s : Surfe_API) (x y z : Dbl) : Outcome Dbl :=
  match s.method_ with
  | none => { result := .threw (.plain .grbf_method_is_null), state := s }
  | some m =>
    if s.have_interpolant_ then
      if s.constraints_changed_ || s.parameters_changed_ then
        { result := .threw (.plain .interpolant_needs_update), state := s }
      else
        { result := .returned (C.eval_scalar_interpolant_at_point m { x := x, y := y, z := z })
          state := s }
    else { result := .threw (.plain .missing_interpolant), state := s }

/-- Surfe_API::EvaluateVectorInterpolantAtPoint, lines 588-610. -/
def EvaluateVectorInterpolantAtPoint (C : Collaborators) (s : Surfe_API) (x y z : Dbl) :
    Outcome (Dbl × Dbl × Dbl) :=
  match s.method_ with
  | none => { result := .threw (.plain .grbf_method_is_null), state := s }
  | some m =>
    if s.have_interpolant_ then
      if s.constraints_changed_ || s.parameters_changed_ then
        { result := .threw (.plain .interpolant_needs_update), state := s }
      else
        { result := .returned (C.eval_vector_interpolant_at_point m { x := x, y := y, z := z })
          state := s }
    else { result := .threw (.plain .missing_interpolant), state := s }

/-! ## Building the regular grid -/

/-- The least value of a C++ int (32 bits). -/
def INT_MIN : Int := -2147483648

/-- The greatest value of a C++ int (32 bits). -/
def INT_MAX : Int := 2147483647

/-- Conversion of a double to int: the fractional part is discarded; the
conversion is undefined when the truncated value is not an int. -/
def double_to_int (q : Dbl) : Option Int :=
  if INT_MIN ≤ Int.tdiv q.num q.den ∧ Int.tdiv q.num q.den ≤ INT_MAX then
    some (Int.tdiv q.num q.den)
  else none

/-- The initialiser `int n = extent / resolution`: the double quotient,
converted to int. A zero divisor gives an infinity or a NaN, whose conversion
to int is undefined. -/
def cell_count (extent resolution : Dbl) : Option Int :=
  if resolution = 0 then none else double_to_int (double_div extent resolution)

/-- The argument `n + 1` of SetDimensions: signed overflow is undefined. -/
def plus_one (n : Int) : Option Int :=
  if n + 1 ≤ INT_MAX then some (n + 1) else none

/-- Lines 640-647 (and their copies in the other overloads): the grid with
`n + 1` points per axis, the given origin and a uniform spacing. -/
def construct_grid (nx ny nz : Int) (origin : Point) (resolution : Dbl) : Option vtkImageData :=
  match plus_one nx, plus_one ny, plus_one nz with
  | some dx, some dy, some dz =>
    some { nx := dx, ny := dy, nz := dz, origin := origin, spacing := resolution, scalars := none }
  | _, _, _ => none

/-- The padding test of the auto-bounds overloads. -/
def padding_applies (xy_percent_padding : Dbl) : Bool :=
  decide (xy_percent_padding ≠ 0 ∧ xy_percent_padding < 100 ∧ xy_percent_padding > 0)

/-- Surfe_API::BuildRegularGrid(xmin, xmax, ymin, ymax, zmin, zmax, resolution),
lines 650-669. -/
def BuildRegularGrid_bounds (s : Surfe_API) (xmin xmax ymin ymax zmin zmax resolution : Dbl) :
    Outcome Unit :=
  match cell_count (double_sub xmax xmin) resolution,
      cell_count (double_sub ymax ymin) resolution,
      cell_count (double_sub zmax zmin) resolution with
  | some nx, some ny, some nz =>
    match construct_grid nx ny nz { x := xmin, y := ymin, z := zmin } resolution with
    | some g => { result := .returned (), state := { s with grid_ := some g } }
    | none => { result := .undefined, state := s }
  | _, _, _ => { result := .undefined, state := s }

/-- Surfe_API::BuildRegularGrid(zmin, zmax, resolution, xy_percent_padding),
lines 612-648. -/
def BuildRegularGrid_z (C : Collaborators) (s : Surfe_API)
    (zmin zmax resolution xy_percent_padding : Dbl) : Outcome Unit :=
  match s.method_ with
  | none => { result := .threw (.plain .grbf_method_is_null), state := s }
  | some m =>
    let b := C.GetBounds (C.convert_constraints_to_points m.constraints)
    let dx := double_sub b.xmax b.xmin
    let dy := double_sub b.ymax b.ymin
    let pad := padding_applies xy_percent_padding
    let fraction := double_div xy_percent_padding 100
    let b0 := if pad then double_sub b.xmin (double_mul dx fraction) else b.xmin
    let b1 := if pad then double_add b.xmax (double_mul dx fraction) else b.xmax
    let b2 := if pad then double_sub b.ymin (double_mul dy fraction) else b.ymin
    let b3 := if pad then double_add b.ymax (double_mul dy fraction) else b.ymax
    match cell_count (double_sub b1 b0) resolution, cell_count (double_sub b3 b2) resolution,
        cell_count (double_sub zmax zmin) resolution with
    | some nx, some ny, some nz =>
      match construct_grid nx ny nz { x := b0, y := b2, z := zmin } resolution with
      | some g => { result := .returned (), state := { s with grid_ := some g } }
      | none => { result := .undefined, state := s }
    | _, _, _ => { result := .undefined, state := s }

/-- Surfe_API::compute_constraint_bounds_and_resolution, lines 120-149. -/
def compute_constraint_bounds_and_resolution (C : Collaborators) (s : Surfe_API) :
    Except GRBF_Exceptions SpatialParameters :=
  match s.method_ with
  | none => .error .grbf_method_is_null
  | some m =>
    let points : List Point :=
      m.constraints.inequality.map (fun c => { x := c.x, y := c.y, z := c.z }) ++
      m.constraints.itrface.map (fun c => { x := c.x, y := c.y, z := c.z }) ++
      m.constraints.planar.map (fun c => { x := c.x, y := c.y, z := c.z }) ++
      m.constraints.tangent.map (fun c => { x := c.x, y := c.y, z := c.z })
    match C.spatial_metrics points with
    | none => .error .problem_computing_spatial_parameters
    | some spatial => .ok spatial

/-- Lines 678-714 and 730-766, shared by the two auto-bounds overloads, which
differ only in the divisor and the spacing (`divisor`): the padded bounds, the
test of `spatial.resolution`, the cell counts, the test for an empty axis and
the grid. -/
def grid_from_spatial (s : Surfe_API) (spatial : SpatialParameters)
    (xy_percent_padding divisor : Dbl) : Outcome Unit :=
  let dx := double_sub spatial.xmax spatial.xmin
  let dy := double_sub spatial.ymax spatial.ymin
  let pad := padding_applies xy_percent_padding
  let fraction := double_div xy_percent_padding 100
  let b0 := if pad then double_sub spatial.xmin (double_mul dx fraction) else spatial.xmin
  let b1 := if pad then double_add spatial.xmax (double_mul dx fraction) else spatial.xmax
  let b2 := if pad then double_sub spatial.ymin (double_mul dy fraction) else spatial.ymin
  let b3 := if pad then double_add spatial.ymax (double_mul dy fraction) else spatial.ymax
  let b4 := if pad then double_sub spatial.zmin (double_mul dy fraction) else spatial.zmin
  let b5 := if pad then double_add spatial.zmax (double_mul dy fraction) else spatial.zmax
  if spatial.resolution = 0 then
    { result := .threw (.plain .problem_computing_grid), state := s }
  else
    match cell_count (double_sub b1 b0) divisor, cell_count (double_sub b3 b2) divisor,
        cell_count (double_sub b5 b4) divisor with
    | some nx, some ny, some nz =>
      if nx = 0 ∨ ny = 0 ∨ nz = 0 then
        { result := .threw (.plain .problem_computing_grid), state := s }
      else
        match construct_grid nx ny nz { x := b0, y := b2, z := b4 } divisor with
        | some g => { result := .returned (), state := { s with grid_ := some g } }
        | none => { result := .undefined, state := s }
    | _, _, _ => { result := .undefined, state := s }

/-- Surfe_API::BuildRegularGrid(xy_percent_padding), lines 671-721: the
divisor and the spacing are `spatial.resolution`. -/
def BuildRegularGrid_padding (C : Collaborators) (s : Surfe_API) (xy_percent_padding : Dbl) :
    Outcome Unit :=
  match compute_constraint_bounds_and_resolution C s with
  | .error e => { result := .threw (.plain e), state := s }
  | .ok spatial => grid_from_spatial s spatial xy_percent_padding spatial.resolution

/-- Surfe_API::BuildRegularGrid(resolution, xy_percent_padding), lines
723-773: the divisor and the spacing are the argument `resolution`. -/
def BuildRegularGrid_resolution (C : Collaborators) (s : Surfe_API)
    (resolution xy_percent_padding : Dbl) : Outcome Unit :=
  match compute_constraint_bounds_and_resolution C s with
  | .error e => { result := .threw (.plain e), state := s }
  | .ok spatial => grid_from_spatial s spatial xy_percent_padding resolution

/-! ## Grid evaluation and its consumers -/

/-- The number of points of the grid: the product of the dimensions. -/
def vtkImageData.GetNumberOfPoints (g : vtkImageData) : Nat :=
  (g.nx * g.ny * g.nz).toNat

/-- The coordinates of point `j` of the grid: x runs fastest, then y, then z. -/
def vtkImageData.GetPoint (g : vtkImageData) (j : Nat) : Point :=
  { x := g.origin.x + ((j % g.nx.toNat : Nat) : Dbl) * g.spacing
    y := g.origin.y + (((j / g.nx.toNat) % g.ny.toNat : Nat) : Dbl) * g.spacing
    z := g.origin.z + ((j / (g.nx.toNat * g.ny.toNat) : Nat) : Dbl) * g.spacing }

/-- Conversion of a 64-bit count to `int`, as in `int N = grid_->GetNumberOfPoints()`:
the value modulo 2^32, taken in the range of int. -/
def to_int (n : Int) : Int :=
  (n + 2147483648) % 4294967296 - 2147483648

/-- The number of iterations of `for (int j = 0; j < N; j++)` when the int `N`
is initialised from the count `n`. -/
def loop_count (n : Nat) : Nat :=
  (to_int n).toNat

/-- A vtkDoubleArray after SetNumberOfTuples(n): `n` tuples whose content is
what the allocation left (`Collaborators.uninitialised_tuple`). -/
def new_tuples (C : Collaborators) (n : Nat) : List Dbl :=
  (List.range n).map C.uninitialised_tuple

/-- Lines 812-818, the part of the loop body of GetEvaluatedGrid that writes
to the array: the interpolant at grid point `j` goes to tuple `j`. -/
def evaluate_point (C : Collaborators) (m : GRBF_Modelling_Methods) (g : vtkImageData)
    (tuples : List Dbl) (j : Nat) : List Dbl :=
  tuples.set j (C.eval_scalar_interpolant_at_point m (g.GetPoint j))

/-- Lines 793-838 of GetEvaluatedGrid, the array "Scalar Field": as many
tuples as the grid has points, then the loop `for (int j = 0; j < N; j++)`
with `int N = grid_->GetNumberOfPoints()`, in the order of a sequential
run. -/
def scalar_field (C : Collaborators) (m : GRBF_Modelling_Methods) (g : vtkImageData) : List Dbl :=
  (List.range (loop_count g.GetNumberOfPoints)).foldl (evaluate_point C m g)
    (new_tuples C g.GetNumberOfPoints)

/-- Forget the value a call returned. -/
def Outcome.void {α : Type} (o : Outcome α) : Outcome Unit :=
  { result := match o.result with
              | .returned _ => .returned ()
              | .threw e => .threw e
              | .undefined => .undefined
    state := o.state }

/-- Lines 793-848 of GetEvaluatedGrid, after the re-solve: the loop over the
grid points, SetScalars and `evaluation_completed_`. A loop body that runs
dereferences `method_`. -/
def evaluate_on_grid (C : Collaborators) (s : Surfe_API) : Outcome vtkImageData :=
  match s.grid_ with
  | none => { result := .undefined, state := s }
  | some g =>
    match s.method_ with
    | none =>
      if loop_count g.GetNumberOfPoints = 0 then
        { result := .returned { g with scalars := some (new_tuples C g.GetNumberOfPoints) }
          state := { s with
            grid_ := some { g with scalars := some (new_tuples C g.GetNumberOfPoints) }
            evaluation_completed_ := true } }
      else { result := .undefined, state := s }
    | some m =>
      { result := .returned { g with scalars := some (scalar_field C m g) }
        state := { s with grid_ := some { g with scalars := some (scalar_field C m g) }
                          evaluation_completed_ := true } }

/-- Surfe_API::GetEvaluatedGrid, lines 775-849. -/
def GetEvaluatedGrid (C : Collaborators) (s : Surfe_API) : Outcome vtkImageData :=
  match s.grid_ with
  | none => { result := .threw (.plain .no_sgrid_exists), state := s }
  | some _ =>
    if !s.have_interpolant_ || s.parameters_changed_ || s.constraints_changed_ then
      match (ComputeInterpolant C s).result with
      | .threw e => { result := .threw e, state := (ComputeInterpolant C s).state }
      | .undefined => { result := .undefined, state := (ComputeInterpolant C s).state }
      | .returned _ => evaluate_on_grid C (ComputeInterpolant C s).state
    else evaluate_on_grid C s

/-- The guard shared by GetIsoSurfaces, GetEvaluatedVTKGridString and
WriteVTKEvaluationGrid (lines 853-865, 1027-1039, 1196-1208): the state in
which the grid is then consumed, or how the guard ended the call. -/
def ensure_evaluated (C : Collaborators) (s : Surfe_API) : Outcome Unit :=
  match s.grid_ with
  | none => { result := .threw (.plain .no_sgrid_exists), state := s }
  | some _ =>
    if !s.evaluation_completed_ || s.parameters_changed_ || s.constraints_changed_ then
      (GetEvaluatedGrid C s).void
    else { result := .returned (), state := s }

/-- What GetIsoSurfaces hands to vtkMarchingCubes: the input grid and the
contour values, one per interface test point. -/
structure MarchingCubesInput where
  grid : vtkImageData
  values : List Dbl
  deriving DecidableEq, Repr

/-- Surfe_API::GetIsoSurfaces, lines 851-886. -/
def GetIsoSurfaces (C : Collaborators) (s : Surfe_API) : Outcome MarchingCubesInput :=
  match (ensure_evaluated C s).result with
  | .threw e => { result := .threw e, state := (ensure_evaluated C s).state }
  | .undefined => { result := .undefined, state := (ensure_evaluated C s).state }
  | .returned _ =>
    let s1 := (ensure_evaluated C s).state
    match s1.grid_, s1.method_ with
    | some g, some m =>
      { result := .returned
          { grid := g
            values := m.interface_test_points.map fun p =>
              C.eval_scalar_interpolant_at_point m { x := p.x, y := p.y, z := p.z } }
        state := s1 }
    | _, _ => { result := .undefined, state := s1 }

/-- Surfe_API::GetEvaluatedVTKGridString, lines 1025-1049: the value is the
grid handed to the writer. -/
def GetEvaluatedVTKGridString (C : Collaborators) (s : Surfe_API) : Outcome vtkImageData :=
  match (ensure_evaluated C s).result with
  | .threw e => { result := .threw e, state := (ensure_evaluated C s).state }
  | .undefined => { result := .undefined, state := (ensure_evaluated C s).state }
  | .returned _ =>
    match (ensure_evaluated C s).state.grid_ with
    | some g => { result := .returned g, state := (ensure_evaluated C s).state }
    | none => { result := .undefined, state := (ensure_evaluated C s).state }

/-- Surfe_API::WriteVTKEvaluationGrid, lines 1193-1215: the value is the grid
handed to the writer. -/
def WriteVTKEvaluationGrid (C : Collaborators) (s : Surfe_API) (_filename : String) :
    Outcome vtkImageData :=
  match (ensure_evaluated C s).result with
  | .threw e => { result := .threw e, state := (ensure_evaluated C s).state }
  | .undefined => { result := .undefined, state := (ensure_evaluated C s).state }
  | .returned _ =>
    match (ensure_evaluated C s).state.grid_ with
    | some g => { result := .returned g, state := (ensure_evaluated C s).state }
    | none => { result := .undefined, state := (ensure_evaluated C s).state }

/-! ## Constraint accessors -/

/-- What GetInterfaceConstraints and GetInequalityConstraints hand out: the
points of the vtkPolyData and its attribute array "level". -/
structure LevelPolyData where
  points : List Point
  level : List Dbl
  deriving DecidableEq, Repr

/-- Surfe_API::GetInterfaceConstraints, lines 888-917. The array "level" gets
`grid_->GetNumberOfPoints()` tuples (line 901, a call through `grid_`); the
loop `for (int j = 0; j < (int)size; j++)` inserts point `j` and writes tuple
`j`, which is undefined past the end of the array. -/
def GetInterfaceConstraints (C : Collaborators) (s : Surfe_API) : Outcome (Option LevelPolyData) :=
  match s.method_ with
  | none => { result := .threw (.plain .grbf_method_is_null), state := s }
  | some m =>
    if m.constraints.itrface ≠ [] then
      match s.grid_ with
      | none => { result := .undefined, state := s }
      | some g =>
        if loop_count m.constraints.itrface.length ≤ g.GetNumberOfPoints then
          { result := .returned (some
              { points := (m.constraints.itrface.take (loop_count m.constraints.itrface.length)).map
                  fun c => { x := c.x, y := c.y, z := c.z }
                level := ((m.constraints.itrface.take
                    (loop_count m.constraints.itrface.length)).enum).foldl
                  (fun tuples jc => tuples.set jc.1 jc.2.level)
                  (new_tuples C g.GetNumberOfPoints) })
            state := s }
        else { result := .undefined, state := s }
    else { result := .returned none, state := s }

/-- Surfe_API::GetInequalityConstraints, lines 994-1023, of the same shape
(line 1007 sizes the array by `grid_->GetNumberOfPoints()`). -/
def GetInequalityConstraints (C : Collaborators) (s : Surfe_API) : Outcome (Option LevelPolyData) :=
  match s.method_ with
  | none => { result := .threw (.plain .grbf_method_is_null), state := s }
  | some m =>
    if m.constraints.inequality ≠ [] then
      match s.grid_ with
      | none => { result := .undefined, state := s }
      | some g =>
        if loop_count m.constraints.inequality.length ≤ g.GetNumberOfPoints then
          { result := .returned (some
              { points := (m.constraints.inequality.take
                    (loop_count m.constraints.inequality.length)).map
                  fun c => { x := c.x, y := c.y, z := c.z }
                level := ((m.constraints.inequality.take
                    (loop_count m.constraints.inequality.length)).enum).foldl
                  (fun tuples jc => tuples.set jc.1 jc.2.level)
                  (new_tuples C g.GetNumberOfPoints) })
            state := s }
        else { result := .undefined, state := s }
    else { result := .returned none, state := s }

/-! ## Calls and reachable states -/

/-- The public member functions that write to a data member or that the
properties below are about. The remaining ones (the constraint accessors,
their string and file writers, the isosurface writers and VisualizeVTKData)
change the members only through GetEvaluatedGrid and GetIsoSurfaces. -/
inductive Call where
  | GetParametersAndConstraints
  | LoadConstraintsFromFiles
  | AddInterfaceConstraint (x y z level : Dbl)
  | AddPlanarConstraintwNormal (x y z nx ny nz : Dbl)
  | AddPlanarConstraintwStrikeDipPolarity (x y z strike dip polarity : Dbl)
  | AddPlanarConstraintwAzimuthDipPolarity (x y z azimuth dip polarity : Dbl)
  | AddTangentConstraint (x y z tx ty tz : Dbl)
  | AddInequalityConstraint (x y z level : Dbl)
  | ComputeInterpolant
  | SetModellingMode (mode : Int)
  | SetRegressionSmoothing (use_regression_smoothing : Bool) (amount : Dbl)
  | SetGreedyAlgorithm (use_greedy : Bool) (interface_uncertainty angular_uncertainty : Dbl)
  | SetRBFKernel (rbf : RBF)
  | SetRBFKernel_name (rbf_name : String)
  | SetRBFShapeParameter (shape_param : Dbl)
  | SetPolynomialOrder (poly_order : Int)
  | SetGlobalAnisotropy (g_anisotropy : Bool)
  | SetRestrictedRange (use_restricted_range : Bool) (interface_uncertainty angular_uncertainty : Dbl)
  | SetInterfaceUncertainty (interface_uncertainty : Dbl)
  | SetAngularUncertainty (angular_uncertainty : Dbl)
  | SetInterfaceDataFile (file : String)
  | SetPlanarDataFile (file : String)
  | SetTangentDataFile (file : String)
  | SetInequalityDataFile (file : String)
  | EvaluateInterpolantAtPoint (x y z : Dbl)
  | EvaluateVectorInterpolantAtPoint (x y z : Dbl)
  | BuildRegularGrid_z (zmin zmax resolution xy_percent_padding : Dbl)
  | BuildRegularGrid_bounds (xmin xmax ymin ymax zmin zmax resolution : Dbl)
  | BuildRegularGrid_padding (xy_percent_padding : Dbl)
  | BuildRegularGrid_resolution (resolution xy_percent_padding : Dbl)
  | GetEvaluatedGrid
  | GetIsoSurfaces
  | GetEvaluatedVTKGridString
  | WriteVTKEvaluationGrid (filename : String)
  deriving DecidableEq, Repr

/-- One call on the object, its value forgotten. -/
def exec (C : Collaborators) (c : Call) (s : Surfe_API) : Outcome Unit :=
  match c with
  | .GetParametersAndConstraints => GetParametersAndConstraints C s
  | .LoadConstraintsFromFiles => LoadConstraintsFromFiles C s
  | .AddInterfaceConstraint x y z l => AddInterfaceConstraint s x y z l
  | .AddPlanarConstraintwNormal x y z a b c => AddPlanarConstraintwNormal s x y z a b c
  | .AddPlanarConstraintwStrikeDipPolarity x y z a b c =>
    AddPlanarConstraintwStrikeDipPolarity s x y z a b c
  | .AddPlanarConstraintwAzimuthDipPolarity x y z a b c =>
    AddPlanarConstraintwAzimuthDipPolarity s x y z a b c
  | .AddTangentConstraint x y z a b c => AddTangentConstraint s x y z a b c
  | .AddInequalityConstraint x y z l => AddInequalityConstraint s x y z l
  | .ComputeInterpolant => ComputeInterpolant C s
  | .SetModellingMode mode => SetModellingMode s mode
  | .SetRegressionSmoothing b a => SetRegressionSmoothing s b a
  | .SetGreedyAlgorithm b iu au => SetGreedyAlgorithm s b iu au
  | .SetRBFKernel k => SetRBFKernel s k
  | .SetRBFKernel_name n => SetRBFKernel_name s n
  | .SetRBFShapeParameter v => SetRBFShapeParameter s v
  | .SetPolynomialOrder v => SetPolynomialOrder s v
  | .SetGlobalAnisotropy v => SetGlobalAnisotropy s v
  | .SetRestrictedRange b iu au => SetRestrictedRange s b iu au
  | .SetInterfaceUncertainty v => SetInterfaceUncertainty s v
  | .SetAngularUncertainty v => SetAngularUncertainty s v
  | .SetInterfaceDataFile f => SetInterfaceDataFile s f
  | .SetPlanarDataFile f => SetPlanarDataFile s f
  | .SetTangentDataFile f => SetTangentDataFile s f
  | .SetInequalityDataFile f => SetInequalityDataFile s f
  | .EvaluateInterpolantAtPoint x y z => (EvaluateInterpolantAtPoint C s x y z).void
  | .EvaluateVectorInterpolantAtPoint x y z => (EvaluateVectorInterpolantAtPoint C s x y z).void
  | .BuildRegularGrid_z a b r p => BuildRegularGrid_z C s a b r p
  | .BuildRegularGrid_bounds a b c d e f r => BuildRegularGrid_bounds s a b c d e f r
  | .BuildRegularGrid_padding p => BuildRegularGrid_padding C s p
  | .BuildRegularGrid_resolution r p => BuildRegularGrid_resolution C s r p
  | .GetEvaluatedGrid => (GetEvaluatedGrid C s).void
  | .GetIsoSurfaces => (GetIsoSurfaces C s).void
  | .GetEvaluatedVTKGridString => (GetEvaluatedVTKGridString C s).void
  | .WriteVTKEvaluationGrid f => (WriteVTKEvaluationGrid C s f).void

/-- A sequence of calls, each on the state the previous one left (a thrown
exception is caught by the caller, who goes on using the object). -/
def run (C : Collaborators) (cs : List Call) (s : Surfe_API) : Surfe_API :=
  cs.foldl (fun st c => (exec C c st).state) s

/-- The states an object can be in: what a constructor builds, and what a
call leaves, whether it returned or threw. The collaborators may behave
differently from one call to the next (files change on disk). -/
inductive Reachable : Surfe_API → Prop where
  | new (p0 : Parameters) : Reachable (Surfe_API.new p0)
  | new_with (C : Collaborators) (params : Parameters) (s : Surfe_API) :
      Surfe_API.new_with C params = .ok s → Reachable s
  | call (C : Collaborators) (c : Call) (s : Surfe_API) :
      Reachable s → (exec C c s).result ≠ .undefined → Reachable (exec C c s).state

/-! ## Vocabulary of the properties -/

/-- The two dirty flags. -/
inductive DirtyFlag where
  | constraints
  | parameters
  deriving DecidableEq, Repr

/-- The value of a dirty flag in a state. -/
def DirtyFlag.get (f : DirtyFlag) (s : Surfe_API) : Bool :=
  match f with
  | .constraints => s.constraints_changed_
  | .parameters => s.parameters_changed_

/-- The mutating calls of the invalidation property and the dirty flag that
corresponds to each: `constraints_changed_` for the constraint mutations,
`parameters_changed_` for the parameter mutations. -/
def Call.invalidates : Call → Option DirtyFlag
  | .AddInterfaceConstraint .. => some .constraints
  | .AddPlanarConstraintwNormal .. => some .constraints
  | .AddPlanarConstraintwStrikeDipPolarity .. => some .constraints
  | .AddPlanarConstraintwAzimuthDipPolarity .. => some .constraints
  | .AddTangentConstraint .. => some .constraints
  | .AddInequalityConstraint .. => some .constraints
  | .SetInterfaceDataFile _ => some .constraints
  | .SetPlanarDataFile _ => some .constraints
  | .SetTangentDataFile _ => some .constraints
  | .SetInequalityDataFile _ => some .constraints
  | .SetModellingMode _ => some .parameters
  | .SetRegressionSmoothing .. => some .parameters
  | .SetGreedyAlgorithm .. => some .parameters
  | .SetRBFKernel _ => some .parameters
  | .SetRBFKernel_name _ => some .parameters
  | .SetRBFShapeParameter _ => some .parameters
  | .SetPolynomialOrder _ => some .parameters
  | .SetGlobalAnisotropy _ => some .parameters
  | .SetRestrictedRange .. => some .parameters
  | .SetInterfaceUncertainty _ => some .parameters
  | .SetAngularUncertainty _ => some .parameters
  | _ => none

/-- The five stages of the method object, run in the order of
ComputeInterpolant on the object `m`, each on the object the previous one
left: the results of the stages. -/
def stage_results (C : Collaborators) (m : GRBF_Modelling_Methods) : List StageResult :=
  let r1 := C.remove_collocated_constraints m
  let r2 := C.process_input_data r1.method
  let r3 := C.get_method_parameters r2.method
  let r4 := C.setup_basis_functions r3.method
  let r5 := C.setup_system_solver r4.method
  [r1, r2, r3, r4, r5]

/-- Every stage of the method object returns, none throws. -/
def stages_succeed (C : Collaborators) (m : GRBF_Modelling_Methods) : Prop :=
  ∀ r ∈ stage_results C m, r.thrown = none

/-- The method object after the five stages. -/
def solved_method (C : Collaborators) (m : GRBF_Modelling_Methods) : GRBF_Modelling_Methods :=
  (C.setup_system_solver (C.setup_basis_functions (C.get_method_parameters
    (C.process_input_data (C.remove_collocated_constraints m).method).method).method).method).method

/-- Every stage of ComputeInterpolant succeeds in state `s`: there is a
method, the reload (made only when `constraint_files_changed_` is set)
returns, and the five stages of the method object return. -/
def every_stage_succeeds (C : Collaborators) (s : Surfe_API) : Prop :=
  ∃ m, s.method_ = some m ∧
    if s.constraint_files_changed_ = true then
      (build_constraints_from_input_files C s).result = .returned () ∧
        stages_succeed C (load_all C s.input_ m).method
    else stages_succeed C m

/-- The grid queries: GetEvaluatedGrid and the three calls that go through it. -/
def Call.isGridQuery : Call → Bool
  | .GetEvaluatedGrid => true
  | .GetIsoSurfaces => true
  | .GetEvaluatedVTKGridString => true
  | .WriteVTKEvaluationGrid _ => true
  | _ => false

/-- The relation between the state before and the state after a call that
the flags `have_interpolant_` and `evaluation_completed_` obey: the first is
never cleared, the second is set only in a state with an interpolant. -/
def Advances (s t : Surfe_API) : Prop :=
  (s.have_interpolant_ = true → t.have_interpolant_ = true) ∧
    (t.evaluation_completed_ = true → s.evaluation_completed_ = true ∨ t.have_interpolant_ = true)

/-- A grid counts as evaluated only when there is an interpolant. -/
def Consistent (s : Surfe_API) : Prop :=
  s.evaluation_completed_ = true → s.have_interpolant_ = true

/-- The model type each mode number stands for: 1 Single_surface, 2
Lajaunie_approach, 3 Vector_field, 4 Stratigraphic_horizons, 5
Continuous_property. -/
def model_type_of_mode (mode : Int) : Option ModelType :=
  [((1 : Int), ModelType.Single_surface), (2, .Lajaunie_approach), (3, .Vector_field),
    (4, .Stratigraphic_horizons), (5, .Continuous_property)].lookup mode

/-- The kernel names and the kernel each stands for. -/
def kernel_names : List (String × RBF) :=
  [("r3", .Cubic), ("WendlandC2", .WendlandC2), ("r", .R), ("Gaussian", .Gaussian),
    ("Multiquadratics", .MQ), ("Thin Plate Spline", .TPS), ("Inverse Multiquadratics", .IMQ),
    ("MaternC4", .MaternC4)]

/-- The strike of an azimuth in exact arithmetic: a - 90 from 90 on, a + 270
below. -/
def exact_strike (a : Dbl) : Dbl :=
  if a ≥ 90 then a - 90 else a + 270

/-! ## Collaborators and states of the worked examples -/

/-- Parameters of the worked examples. -/
def sample_parameters : Parameters :=
  { model_type := .Single_surface
    basis_type := .Cubic
    shape_parameter := 1
    polynomial_order := 1
    model_global_anisotropy := false
    use_regression_smoothing := false
    smoothing_amount := 0
    use_greedy := false
    interface_uncertainty := 0
    angular_uncertainty := 0
    use_interface := false
    use_inequality := false
    use_planar := false
    use_tangent := false }

/-- Collaborators of the worked examples: every reader returns no record,
every stage returns, the solver stores a solution whose only weight is the
shape parameter the method holds, and the interpolant evaluates to that
weight (0 without a solution). -/
def sample_collaborators : Collaborators :=
  { get_file_extension := fun _ => "csv"
    csv_interface := fun _ => .records []
    vtk_interface := fun _ => .records []
    csv_inequality := fun _ => .records []
    vtk_inequality := fun _ => .records []
    csv_planar := fun _ => .records []
    vtk_planar := fun _ => .records []
    csv_tangent := fun _ => .records []
    vtk_tangent := fun _ => .records []
    GetDialogParameters := default_input sample_parameters
    remove_collocated_constraints := fun m => { method := m, thrown := none }
    process_input_data := fun m => { method := m, thrown := none }
    get_method_parameters := fun m => { method := m, thrown := none }
    setup_basis_functions := fun m => { method := m, thrown := none }
    setup_system_solver := fun m =>
      { method := { m with solution := some { weights := [m.ui_parameters.shape_parameter]
                                              coefficients := [] } }
        thrown := none }
    eval_scalar_interpolant_at_point := fun m _ =>
      match m.solution with
      | some i => i.weights.headD 0
      | none => 0
    eval_vector_interpolant_at_point := fun _ _ => (0, 0, 0)
    spatial_metrics := fun _ => none
    convert_constraints_to_points := fun _ => []
    GetBounds := fun _ =>
      { xmin := 1, xmax := -1, ymin := 1, ymax := -1, zmin := 1, zmax := -1 }
    uninitialised_tuple := fun _ => 0 }

/-- An object with a method and a fresh interpolant: no dirty flag. -/
def solved_state : Surfe_API :=
  { input_ := default_input sample_parameters
    method_ := some { new_method sample_parameters with
                        solution := some { weights := [1], coefficients := [] } }
    grid_ := none
    have_interpolant_ := true
    have_method_ := true
    evaluation_completed_ := false
    parameters_changed_ := false
    constraint_files_changed_ := false
    constraints_changed_ := false }

/-- What `Surfe_API(sample_parameters)` builds with the sample collaborators:
a method without constraints, the files marked as loaded. -/
def constructed_state : Surfe_API :=
  { input_ := default_input sample_parameters
    method_ := some (new_method sample_parameters)
    grid_ := none
    have_interpolant_ := false
    have_method_ := true
    evaluation_completed_ := false
    parameters_changed_ := true
    constraint_files_changed_ := false
    constraints_changed_ := true }

/-- The sample collaborators after the interface file has become unreadable:
the CSV interface reader throws an exception that carries a nested one. -/
def unreadable_collaborators : Collaborators :=
  { sample_collaborators with csv_interface := fun _ => .throws (.library 1) true }

/-- The sample collaborators with an interface file of one record and a
process_input_data that throws. -/
def failing_process_collaborators : Collaborators :=
  { sample_collaborators with
    csv_interface := fun _ => .records [{ x := 0, y := 0, z := 0, level := 0 }]
    process_input_data := fun m => { method := m, thrown := some (.library 2) } }

/-- The sample collaborators on constraints that lie in the plane z = 0: the
bounding box is [0,10] x [0,10] x [0,0], the derived resolution 1. -/
def flat_box_collaborators : Collaborators :=
  { sample_collaborators with
    spatial_metrics := fun _ =>
      some { resolution := 1, xmin := 0, xmax := 10, ymin := 0, ymax := 10, zmin := 0, zmax := 0 } }

/-- The sample collaborators on constraints whose bounding box is
[0,10] x [0,10] x [0,10], the derived resolution 1. -/
def cube_box_collaborators : Collaborators :=
  { sample_collaborators with
    spatial_metrics := fun _ =>
      some { resolution := 1, xmin := 0, xmax := 10, ymin := 0, ymax := 10, zmin := 0, zmax := 10 } }

/-- The sample collaborators on constraints whose x and y bounds are [0,10]
(what vtkPoints::GetBounds reports). -/
def square_bounds_collaborators : Collaborators :=
  { sample_collaborators with
    GetBounds := fun _ => { xmin := 0, xmax := 10, ymin := 0, ymax := 10, zmin := 0, zmax := 0 } }

/-- The sample collaborators with a file-extension function for the names of
the examples and tangent readers that tell the format they read: the CSV
reader returns a record with tangent (1,0,0), the VTK reader one with
tangent (0,1,0). -/
def two_format_collaborators : Collaborators :=
  { sample_collaborators with
    get_file_extension := fun f =>
      if f = "tangent.csv" then "csv" else if f = "planar.vtk" then "vtk" else ""
    csv_tangent := fun _ => .records [{ x := 0, y := 0, z := 0, tx := 1, ty := 0, tz := 0 }]
    vtk_tangent := fun _ => .records [{ x := 0, y := 0, z := 0, tx := 0, ty := 1, tz := 0 }] }

/-- The solved sample state after AddInterfaceConstraint(1, 2, 3, 7) and
AddInequalityConstraint(4, 5, 6, 8): one constraint in each of the two
categories, no grid. -/
def one_constraint_state : Surfe_API :=
  (AddInequalityConstraint (AddInterfaceConstraint solved_state 1 2 3 7).state 4 5 6 8).state

/-- A grid of 2048 x 1024 x 1024 = 2^31 points, the one
BuildRegularGrid(0, 2047, 0, 1023, 0, 1023, 1) installs. -/
def huge_grid : vtkImageData :=
  { nx := 2048, ny := 1024, nz := 1024, origin := { x := 0, y := 0, z := 0 }, spacing := 1,
    scalars := none }

/-- The sample collaborators with a file-extension function that gives
"notes.txt" the extension "txt" and interface readers that each return one
record, whatever the file: the CSV reader one of level 1, the VTK reader one
of level 2. -/
def text_file_collaborators : Collaborators :=
  { sample_collaborators with
    get_file_extension := fun f => if f = "notes.txt" then "txt" else "csv"
    csv_interface := fun _ => .records [{ x := 9, y := 9, z := 9, level := 1 }]
    vtk_interface := fun _ => .records [{ x := 9, y := 9, z := 9, level := 2 }] }

/-- The sample collaborators on constraints whose bounding box is
[0,10] x [0,10] x [0,10] and whose derived resolution is 0. -/
def zero_resolution_collaborators : Collaborators :=
  { sample_collaborators with
    spatial_metrics := fun _ =>
      some { resolution := 0, xmin := 0, xmax := 10, ymin := 0, ymax := 10, zmin := 0, zmax := 10 } }

/-- The largest double below 90: 90 - 2^-46. -/
def below_90 : Dbl := 6333186975989759 / 70368744177664

/-! # Properties -/

/-! ## Invalidation -/

theorem SetModellingMode_cases (s : Surfe_API) (mode : Int) :
    ((SetModellingMode s mode).result = .threw (.plain .unknown_modelling_mode) ∧
        (SetModellingMode s mode).state = s) ∨
      ((SetModellingMode s mode).result = .returned () ∧
        ∃ t, (SetModellingMode s mode).state =
          { s with input_ := { s.input_ with
                     parameters := { s.input_.parameters with model_type := t } }
                   parameters_changed_ := true
                   evaluation_completed_ := false }) := by
  unfold SetModellingMode
  split_ifs
  · exact Or.inr ⟨rfl, _, rfl⟩
  · exact Or.inr ⟨rfl, _, rfl⟩
  · exact Or.inr ⟨rfl, _, rfl⟩
  · exact Or.inr ⟨rfl, _, rfl⟩
  · exact Or.inr ⟨rfl, _, rfl⟩
  · exact Or.inl ⟨rfl, rfl⟩

theorem SetRBFKernel_name_cases (s : Surfe_API) (rbf_name : String) :
    ((SetRBFKernel_name s rbf_name).result = .threw (.plain .unknown_rbf) ∧
        (SetRBFKernel_name s rbf_name).state = s) ∨
      ((SetRBFKernel_name s rbf_name).result = .returned () ∧
        ∃ k, (SetRBFKernel_name s rbf_name).state =
          { s with input_ := { s.input_ with
                     parameters := { s.input_.parameters with basis_type := k } }
                   parameters_changed_ := true
                   evaluation_completed_ := false }) := by
  unfold SetRBFKernel_name
  cases rbf_of_name rbf_name with
  | none => exact Or.inl ⟨rfl, rfl⟩
  | some k => exact Or.inr ⟨rfl, k, rfl⟩

/-- A listed mutation that returns sets its dirty flag and clears
`evaluation_completed_`; it keeps the interpolant flag and the presence of a
method. -/
theorem mutation_sets_flag (C : Collaborators) (s : Surfe_API) (c : Call) (f : DirtyFlag)
    (hc : c.invalidates = some f) (hret : (exec C c s).result = .returned ()) :
    f.get (exec C c s).state = true ∧ (exec C c s).state.evaluation_completed_ = false ∧
      (exec C c s).state.have_interpolant_ = s.have_interpolant_ ∧
      (exec C c s).state.method_.isSome = s.method_.isSome := by
  cases c <;> simp [Call.invalidates] at hc <;> subst hc
  case SetModellingMode mode =>
    rcases SetModellingMode_cases s mode with ⟨h1, _⟩ | ⟨_, t, h2⟩
    · simp [exec, h1] at hret
    · simp [exec, h2, DirtyFlag.get]
  case SetRBFKernel_name n =>
    rcases SetRBFKernel_name_cases s n with ⟨h1, _⟩ | ⟨_, t, h2⟩
    · simp [exec, h1] at hret
    · simp [exec, h2, DirtyFlag.get]
  all_goals
    cases hm : s.method_ <;>
    simp [exec, DirtyFlag.get, AddInterfaceConstraint, AddPlanarConstraintwNormal,
      AddPlanarConstraintwStrikeDipPolarity, AddPlanarConstraintwAzimuthDipPolarity,
      AddTangentConstraint, AddInequalityConstraint, add_constraint, set_on_method, set_on_input,
      set_data_file, SetRegressionSmoothing, SetGreedyAlgorithm, SetRBFKernel,
      SetRBFShapeParameter, SetPolynomialOrder, SetGlobalAnisotropy,
      SetRestrictedRange, SetInterfaceUncertainty, SetAngularUncertainty, SetInterfaceDataFile,
      SetPlanarDataFile, SetTangentDataFile, SetInequalityDataFile, hm] at hret ⊢

/-- What build_constraints_from_input_files does on a state with a method:
it throws a nested reader exception on and leaves the flags alone, or it
returns with `constraint_files_changed_` cleared and `constraints_changed_`
set. -/
theorem build_constraints_spec (C : Collaborators) (s : Surfe_API) (m : GRBF_Modelling_Methods)
    (hm : s.method_ = some m) :
    (∃ e, (load_all C s.input_ m).thrown = some (e, true) ∧
        build_constraints_from_input_files C s =
          { result := .threw (.plain e)
            state := { s with method_ := some (load_all C s.input_ m).method } }) ∨
      ((∀ e, (load_all C s.input_ m).thrown ≠ some (e, true)) ∧
        build_constraints_from_input_files C s =
          { result := .returned ()
            state := { s with method_ := some (load_all C s.input_ m).method
                              constraint_files_changed_ := false
                              constraints_changed_ := true } }) := by
  unfold build_constraints_from_input_files
  simp only [hm]
  rcases h : (load_all C s.input_ m).thrown with _ | ⟨e, n⟩
  · exact Or.inr ⟨by simp, rfl⟩
  · cases n
    · exact Or.inr ⟨by simp, rfl⟩
    · exact Or.inl ⟨e, rfl, rfl⟩

/-- The five stages on a state with a method: all return and the three flags
are assigned, or one throws and only `method_` has changed. -/
theorem solve_stages_spec (C : Collaborators) (s : Surfe_API) (m : GRBF_Modelling_Methods)
    (hm : s.method_ = some m) :
    (stages_succeed C m ∧
      solve_stages C s =
        { result := .returned ()
          state := { s with method_ := some (solved_method C m)
                            have_interpolant_ := true
                            constraints_changed_ := false
                            parameters_changed_ := false } }) ∨
    (¬ stages_succeed C m ∧
      ∃ e, ∃ r ∈ stage_results C m,
        solve_stages C s = { result := .threw e, state := { s with method_ := some r.method } }) := by
  unfold solve_stages
  simp only [run_stage, hm, stages_succeed, stage_results, solved_method, List.mem_cons,
    List.mem_singleton, forall_eq_or_imp, forall_eq, exists_eq_or_imp, exists_eq_left,
    List.not_mem_nil, false_imp_iff, implies_true, and_true, exists_false, or_false]
  rcases h1 : (C.remove_collocated_constraints m).thrown with _ | e1
  · rcases h2 : (C.process_input_data (C.remove_collocated_constraints m).method).thrown with _ | e2
    · rcases h3 : (C.get_method_parameters
        (C.process_input_data (C.remove_collocated_constraints m).method).method).thrown with _ | e3
      · rcases h4 : (C.setup_basis_functions (C.get_method_parameters
          (C.process_input_data (C.remove_collocated_constraints m).method).method).method).thrown
          with _ | e4
        · rcases h5 : (C.setup_system_solver (C.setup_basis_functions (C.get_method_parameters
            (C.process_input_data (C.remove_collocated_constraints m).method).method).method).method).thrown
            with _ | e5
          · exact Or.inl ⟨⟨rfl, rfl, rfl, rfl, rfl⟩, rfl⟩
          · exact Or.inr ⟨by simp, _, Or.inr (Or.inr (Or.inr (Or.inr rfl)))⟩
        · exact Or.inr ⟨by simp, _, Or.inr (Or.inr (Or.inr (Or.inl rfl)))⟩
      · exact Or.inr ⟨by simp, _, Or.inr (Or.inr (Or.inl rfl))⟩
    · exact Or.inr ⟨by simp, _, Or.inr (Or.inl rfl)⟩
  · exact Or.inr ⟨by simp, _, Or.inl rfl⟩


/-- ComputeInterpolant on any state: every stage succeeds, the call returns
and the three flags are assigned; or some stage fails (or the method is
missing), the call throws and only `method_`, `constraint_files_changed_` and
`constraints_changed_` may differ, the last never cleared. -/
theorem ComputeInterpolant_cases (C : Collaborators) (s : Surfe_API) :
    (every_stage_succeeds C s ∧ (ComputeInterpolant C s).result = .returned () ∧
      (ComputeInterpolant C s).state.have_interpolant_ = true ∧
      (ComputeInterpolant C s).state.constraints_changed_ = false ∧
      (ComputeInterpolant C s).state.parameters_changed_ = false ∧
      (ComputeInterpolant C s).state.method_.isSome = true) ∨
    (¬ every_stage_succeeds C s ∧ (∃ e, (ComputeInterpolant C s).result = .threw e) ∧
      (ComputeInterpolant C s).state.have_interpolant_ = s.have_interpolant_ ∧
      (ComputeInterpolant C s).state.parameters_changed_ = s.parameters_changed_ ∧
      (s.constraints_changed_ = true → (ComputeInterpolant C s).state.constraints_changed_ = true) ∧
      (ComputeInterpolant C s).state.method_.isSome = s.method_.isSome) := by
  unfold ComputeInterpolant every_stage_succeeds
  cases hm : s.method_ with
  | none => exact Or.inr ⟨by simp, ⟨_, rfl⟩, rfl, rfl, fun h => h, by simp [hm]⟩
  | some m =>
    by_cases hf : s.constraint_files_changed_ = true
    · simp only [hf, if_true]
      rcases build_constraints_spec C s m hm with ⟨e, _, hb⟩ | ⟨_, hb⟩
      · right
        simp [hb, hm]
      · simp only [hb]
        rcases solve_stages_spec C
            { s with method_ := some (load_all C s.input_ m).method
                     constraint_files_changed_ := false
                     constraints_changed_ := true } (load_all C s.input_ m).method rfl with
          ⟨hs, he⟩ | ⟨hs, e, r, _, he⟩
        · left
          simp [he, hs]
        · right
          simp [he, hs, hm]
    · simp only [hf]
      rcases solve_stages_spec C s m hm with ⟨hs, he⟩ | ⟨hs, e, r, _, he⟩
      · left
        simp [he, hs]
      · right
        simp [he, hs, hm]


/-- ComputeInterpolant writes neither to the grid, nor to
`evaluation_completed_`, nor to `input_`. -/
theorem ComputeInterpolant_frame (C : Collaborators) (s : Surfe_API) :
    (ComputeInterpolant C s).state.grid_ = s.grid_ ∧
      (ComputeInterpolant C s).state.evaluation_completed_ = s.evaluation_completed_ ∧
      (ComputeInterpolant C s).state.input_ = s.input_ := by
  unfold ComputeInterpolant
  cases hm : s.method_ with
  | none => exact ⟨rfl, rfl, rfl⟩
  | some m =>
    by_cases hf : s.constraint_files_changed_ = true
    · simp only [hf, if_true]
      rcases build_constraints_spec C s m hm with ⟨e, _, hb⟩ | ⟨_, hb⟩
      · simp [hb]
      · simp only [hb]
        rcases solve_stages_spec C
            { s with method_ := some (load_all C s.input_ m).method
                     constraint_files_changed_ := false
                     constraints_changed_ := true } (load_all C s.input_ m).method rfl with
          ⟨_, he⟩ | ⟨_, e, r, _, he⟩ <;> simp [he]
    · simp only [hf]
      rcases solve_stages_spec C s m hm with ⟨_, he⟩ | ⟨_, e, r, _, he⟩ <;> simp [he]

/-- C2, as the code has it. The two point evaluations apply the same guards
and leave the state alone. Without a method both throw grbf_method_is_null,
whatever the flags. With a method they return the value of the method's
evaluator exactly when `have_interpolant_` is set and no dirty flag is;
with a method and no interpolant both throw missing_interpolant; with a
method, an interpolant and a dirty flag both throw interpolant_needs_update. -/
theorem point_evaluation_guards (C : Collaborators) (s : Surfe_API) (x y z : Dbl) :
    (EvaluateInterpolantAtPoint C s x y z).state = s ∧
    (EvaluateVectorInterpolantAtPoint C s x y z).state = s ∧
    (s.method_ = none →
      (EvaluateInterpolantAtPoint C s x y z).result = .threw (.plain .grbf_method_is_null) ∧
      (EvaluateVectorInterpolantAtPoint C s x y z).result =
        .threw (.plain .grbf_method_is_null)) ∧
    (∀ m, s.method_ = some m → s.have_interpolant_ = false →
      (EvaluateInterpolantAtPoint C s x y z).result = .threw (.plain .missing_interpolant) ∧
      (EvaluateVectorInterpolantAtPoint C s x y z).result =
        .threw (.plain .missing_interpolant)) ∧
    (∀ m, s.method_ = some m → s.have_interpolant_ = true →
      (s.constraints_changed_ = true ∨ s.parameters_changed_ = true) →
      (EvaluateInterpolantAtPoint C s x y z).result = .threw (.plain .interpolant_needs_update) ∧
      (EvaluateVectorInterpolantAtPoint C s x y z).result =
        .threw (.plain .interpolant_needs_update)) ∧
    (∀ m, s.method_ = some m → s.have_interpolant_ = true →
      s.constraints_changed_ = false → s.parameters_changed_ = false →
      (EvaluateInterpolantAtPoint C s x y z).result =
        .returned (C.eval_scalar_interpolant_at_point m { x := x, y := y, z := z }) ∧
      (EvaluateVectorInterpolantAtPoint C s x y z).result =
        .returned (C.eval_vector_interpolant_at_point m { x := x, y := y, z := z })) ∧
    ((∃ v, (EvaluateInterpolantAtPoint C s x y z).result = .returned v) ↔
      (s.method_.isSome = true ∧ s.have_interpolant_ = true ∧
        s.constraints_changed_ = false ∧ s.parameters_changed_ = false)) ∧
    ((∃ v, (EvaluateVectorInterpolantAtPoint C s x y z).result = .returned v) ↔
      (s.method_.isSome = true ∧ s.have_interpolant_ = true ∧
        s.constraints_changed_ = false ∧ s.parameters_changed_ = false)) := by
  unfold EvaluateInterpolantAtPoint EvaluateVectorInterpolantAtPoint
  cases hm : s.method_ with
  | none => simp
  | some m =>
    cases hi : s.have_interpolant_ <;> cases hc : s.constraints_changed_ <;>
      cases hp : s.parameters_changed_ <;> simp

/-- Witness of C2 on the solved sample state: both evaluations return. -/
theorem point_evaluation_guards_witness :
    (EvaluateInterpolantAtPoint sample_collaborators solved_state 0 0 0).result = .returned 1 ∧
      (EvaluateVectorInterpolantAtPoint sample_collaborators solved_state 0 0 0).result =
        .returned (0, 0, 0) :=
  (point_evaluation_guards sample_collaborators solved_state 0 0 0).2.2.2.2.2.1 _ rfl rfl rfl rfl

/-- C2 as stated fails on a default-constructed object: the interpolant is
absent, yet both evaluations throw grbf_method_is_null, not
missing_interpolant. -/
theorem absent_interpolant_without_method :
    (Surfe_API.new sample_parameters).have_interpolant_ = false ∧
      (EvaluateInterpolantAtPoint sample_collaborators (Surfe_API.new sample_parameters) 0 0 0).result
        = .threw (.plain .grbf_method_is_null) ∧
      (EvaluateVectorInterpolantAtPoint sample_collaborators
        (Surfe_API.new sample_parameters) 0 0 0).result = .threw (.plain .grbf_method_is_null) ∧
      (EvaluateInterpolantAtPoint sample_collaborators (Surfe_API.new sample_parameters) 0 0 0).result
        ≠ .threw (.plain .missing_interpolant) := by
  refine ⟨rfl, rfl, rfl, ?_⟩
  simp [EvaluateInterpolantAtPoint, Surfe_API.new]

/-- C4. ComputeInterpolant returns exactly when every stage succeeds (the
reload when one is due, then the five stages of the method object), and then
`have_interpolant_` is set and both dirty flags are clear. Without a method
it throws grbf_method_is_null and changes nothing. Whenever it does not
return it throws, `have_interpolant_` keeps its value and a dirty flag that
was set is still set. -/
theorem ComputeInterpolant_only_success_creates (C : Collaborators) (s : Surfe_API) :
    ((ComputeInterpolant C s).result = .returned () ↔ every_stage_succeeds C s) ∧
    ((ComputeInterpolant C s).result = .returned () →
      (ComputeInterpolant C s).state.have_interpolant_ = true ∧
      (ComputeInterpolant C s).state.parameters_changed_ = false ∧
      (ComputeInterpolant C s).state.constraints_changed_ = false) ∧
    (s.method_ = none →
      ComputeInterpolant C s = { result := .threw (.plain .grbf_method_is_null), state := s }) ∧
    ((ComputeInterpolant C s).result ≠ .returned () →
      (∃ e, (ComputeInterpolant C s).result = .threw e) ∧
      (ComputeInterpolant C s).state.have_interpolant_ = s.have_interpolant_ ∧
      (s.parameters_changed_ = true → (ComputeInterpolant C s).state.parameters_changed_ = true) ∧
      (s.constraints_changed_ = true →
        (ComputeInterpolant C s).state.constraints_changed_ = true)) := by
  refine ⟨?_, ?_, ?_, ?_⟩
  · rcases ComputeInterpolant_cases C s with ⟨h, hr, _⟩ | ⟨h, ⟨e, he⟩, _⟩
    · exact ⟨fun _ => h, fun _ => hr⟩
    · exact ⟨fun hr => (by rw [he] at hr; cases hr), fun h' => absurd h' h⟩
  · intro hr
    rcases ComputeInterpolant_cases C s with ⟨_, _, g1, g2, g3, _⟩ | ⟨_, ⟨e, he⟩, _⟩
    · exact ⟨g1, g3, g2⟩
    · rw [he] at hr
      cases hr
  · intro hm
    simp [ComputeInterpolant, hm]
  · intro hr
    rcases ComputeInterpolant_cases C s with ⟨_, hr', _⟩ | ⟨_, he, g1, g2, g3, _⟩
    · exact absurd hr' hr
    · exact ⟨he, g1, fun hp => (by rw [g2]; exact hp), g3⟩

/-- Witness of C4: on the solved sample state with a pending parameter
change every stage succeeds and the call returns with the flags assigned. -/
theorem ComputeInterpolant_only_success_creates_witness :
    (ComputeInterpolant sample_collaborators
        (exec sample_collaborators (.SetPolynomialOrder 2) solved_state).state).state.have_interpolant_
        = true ∧
      (ComputeInterpolant sample_collaborators
        (exec sample_collaborators (.SetPolynomialOrder 2) solved_state).state).state.parameters_changed_
        = false ∧
      (ComputeInterpolant sample_collaborators
        (exec sample_collaborators (.SetPolynomialOrder 2) solved_state).state).state.constraints_changed_
        = false :=
  (ComputeInterpolant_only_success_creates sample_collaborators
    (exec sample_collaborators (.SetPolynomialOrder 2) solved_state).state).2.1 rfl

/-! ## The states of the worked examples -/

/-- The sample states are states of the program: the constructor builds
`constructed_state`, ComputeInterpolant takes it to `solved_state`. -/
theorem sample_states_reachable :
    Surfe_API.new_with sample_collaborators sample_parameters = .ok constructed_state ∧
      exec sample_collaborators .ComputeInterpolant constructed_state =
        { result := .returned (), state := solved_state } ∧
      Reachable constructed_state ∧ Reachable solved_state := by
  have h1 : Surfe_API.new_with sample_collaborators sample_parameters = .ok constructed_state :=
    rfl
  have h2 : exec sample_collaborators .ComputeInterpolant constructed_state =
      { result := .returned (), state := solved_state } := rfl
  have h3 : Reachable constructed_state := Reachable.new_with _ _ _ h1
  refine ⟨h1, h2, h3, ?_⟩
  have h4 := Reachable.call sample_collaborators .ComputeInterpolant constructed_state h3
  rw [h2] at h4
  exact h4 (by simp)

/-! ## A reload that fails -/

/-- C3, the code at the failing input. An object is built, given an interface
file, loaded and solved: the point evaluation returns 1. The file then
becomes unreadable and LoadConstraintsFromFiles throws; it leaves a newly
created method, without a solution, next to `have_interpolant_` still set and
both dirty flags clear, and the point evaluation returns a value (0) taken
from that method. -/
theorem failed_reload_leaves_unsolved_method_evaluable :
    (EvaluateInterpolantAtPoint sample_collaborators
        (run sample_collaborators
          [.SetInterfaceDataFile "a.csv", .LoadConstraintsFromFiles, .ComputeInterpolant]
          (Surfe_API.new sample_parameters)) 0 0 0).result = .returned 1 ∧
      (LoadConstraintsFromFiles unreadable_collaborators
        (run sample_collaborators
          [.SetInterfaceDataFile "a.csv", .LoadConstraintsFromFiles, .ComputeInterpolant]
          (Surfe_API.new sample_parameters))).result = .threw (.SurfeExceptions (.library 1)) ∧
      (LoadConstraintsFromFiles unreadable_collaborators
        (run sample_collaborators
          [.SetInterfaceDataFile "a.csv", .LoadConstraintsFromFiles, .ComputeInterpolant]
          (Surfe_API.new sample_parameters))).state.method_ = some (new_method sample_parameters) ∧
      (new_method sample_parameters).solution = none ∧
      (EvaluateInterpolantAtPoint unreadable_collaborators
        (LoadConstraintsFromFiles unreadable_collaborators
          (run sample_collaborators
            [.SetInterfaceDataFile "a.csv", .LoadConstraintsFromFiles, .ComputeInterpolant]
            (Surfe_API.new sample_parameters))).state 0 0 0).result = .returned 0 := by
  refine ⟨?_, ?_, ?_, ?_, ?_⟩ <;> rfl

/-! ## A solve that fails -/

/-- C5 as stated fails when a reload is due. The solved sample state is given
an interface file name; process_input_data then fails. ComputeInterpolant
throws, yet `constraint_files_changed_` has gone from set to clear and the
interface category from empty to the record read. -/
theorem failed_solve_after_reload_changes_state :
    (exec sample_collaborators (.SetInterfaceDataFile "a.csv")
        solved_state).state.constraint_files_changed_ = true ∧
      (ComputeInterpolant failing_process_collaborators
        (exec sample_collaborators (.SetInterfaceDataFile "a.csv") solved_state).state).result =
          .threw (.SurfeExceptions (.library 2)) ∧
      (ComputeInterpolant failing_process_collaborators
        (exec sample_collaborators (.SetInterfaceDataFile "a.csv")
          solved_state).state).state.constraint_files_changed_ = false ∧
      ((exec sample_collaborators (.SetInterfaceDataFile "a.csv")
        solved_state).state.method_.map fun m => m.constraints.itrface) = some [] ∧
      ((ComputeInterpolant failing_process_collaborators
        (exec sample_collaborators (.SetInterfaceDataFile "a.csv")
          solved_state).state).state.method_.map fun m => m.constraints.itrface) =
            some [{ x := 0, y := 0, z := 0, level := 0 }] := by
  refine ⟨?_, ?_, ?_, ?_, ?_⟩ <;> rfl

/-- C5, as the code has it. A ComputeInterpolant that fails after the reload
stage (in a stage of the method object) leaves `have_interpolant_`,
`parameters_changed_`, `input_` and the grid as they were. When no reload
was due, `constraint_files_changed_` and `constraints_changed_` are also as
they were and the method object is the one a stage left: the API itself has
written nothing to the constraint store. When a reload was due, it has been
made: `constraint_files_changed_` is clear, `constraints_changed_` is set and
the method object is the one a stage left of the reloaded object. -/
theorem failed_solve_frame (C : Collaborators) (s : Surfe_API) (m : GRBF_Modelling_Methods)
    (hm : s.method_ = some m)
    (hreload : s.constraint_files_changed_ = true →
      (build_constraints_from_input_files C s).result = .returned ())
    (hfail : (ComputeInterpolant C s).result ≠ .returned ()) :
    (ComputeInterpolant C s).state.have_interpolant_ = s.have_interpolant_ ∧
    (ComputeInterpolant C s).state.parameters_changed_ = s.parameters_changed_ ∧
    (ComputeInterpolant C s).state.input_ = s.input_ ∧
    (ComputeInterpolant C s).state.grid_ = s.grid_ ∧
    (s.constraint_files_changed_ = false →
      (ComputeInterpolant C s).state.constraint_files_changed_ = false ∧
      (ComputeInterpolant C s).state.constraints_changed_ = s.constraints_changed_ ∧
      ∃ r ∈ stage_results C m, (ComputeInterpolant C s).state.method_ = some r.method) ∧
    (s.constraint_files_changed_ = true →
      (ComputeInterpolant C s).state.constraint_files_changed_ = false ∧
      (ComputeInterpolant C s).state.constraints_changed_ = true ∧
      ∃ r ∈ stage_results C (load_all C s.input_ m).method,
        (ComputeInterpolant C s).state.method_ = some r.method) := by
  obtain ⟨f1, _, f3⟩ := ComputeInterpolant_frame C s
  have hc : (ComputeInterpolant C s).state.have_interpolant_ = s.have_interpolant_ ∧
      (ComputeInterpolant C s).state.parameters_changed_ = s.parameters_changed_ := by
    rcases ComputeInterpolant_cases C s with ⟨_, hr, _⟩ | ⟨_, _, g1, g2, _⟩
    · exact absurd hr hfail
    · exact ⟨g1, g2⟩
  refine ⟨hc.1, hc.2, f3, f1, ?_, ?_⟩
  · intro hf
    have hsolve : ComputeInterpolant C s = solve_stages C s := by
      simp [ComputeInterpolant, hm, hf]
    rcases solve_stages_spec C s m hm with ⟨_, he⟩ | ⟨_, e, r, hr, he⟩
    · rw [hsolve, he] at hfail
      exact absurd rfl hfail
    · rw [hsolve, he]
      exact ⟨hf, rfl, r, hr, rfl⟩
  · intro hf
    have hb := hreload hf
    rcases build_constraints_spec C s m hm with ⟨e, _, hb'⟩ | ⟨_, hb'⟩
    · rw [hb'] at hb
      cases hb
    · have hsolve : ComputeInterpolant C s =
          solve_stages C { s with method_ := some (load_all C s.input_ m).method
                                  constraint_files_changed_ := false
                                  constraints_changed_ := true } := by
        simp [ComputeInterpolant, hm, hf, hb']
      rcases solve_stages_spec C
          { s with method_ := some (load_all C s.input_ m).method
                   constraint_files_changed_ := false
                   constraints_changed_ := true } (load_all C s.input_ m).method rfl with
        ⟨_, he⟩ | ⟨_, e, r, hr, he⟩
      · rw [hsolve, he] at hfail
        exact absurd rfl hfail
      · rw [hsolve, he]
        exact ⟨rfl, rfl, r, hr, rfl⟩

/-- Witness of C5: the solved sample state with a pending parameter change
and no reload due, process_input_data failing. -/
theorem failed_solve_frame_witness :
    (ComputeInterpolant failing_process_collaborators
        (exec sample_collaborators (.SetPolynomialOrder 2) solved_state).state).state.have_interpolant_
        = true ∧
      (ComputeInterpolant failing_process_collaborators
        (exec sample_collaborators (.SetPolynomialOrder 2) solved_state).state).state.parameters_changed_
        = true ∧
      (ComputeInterpolant failing_process_collaborators
        (exec sample_collaborators (.SetPolynomialOrder 2)
          solved_state).state).state.constraint_files_changed_ = false ∧
      (ComputeInterpolant failing_process_collaborators
        (exec sample_collaborators (.SetPolynomialOrder 2)
          solved_state).state).state.constraints_changed_ = false :=
  have h := failed_solve_frame failing_process_collaborators
    (exec sample_collaborators (.SetPolynomialOrder 2) solved_state).state
    { new_method sample_parameters with solution := some { weights := [1], coefficients := [] } }
    rfl (fun h => Bool.noConfusion h) (by decide)
  ⟨h.1, h.2.1, (h.2.2.2.2.1 rfl).1, (h.2.2.2.2.1 rfl).2.1⟩

/-! ## Setters and the parameters of the active method -/

/-- C6, the code at two failing inputs. First: on the constructed sample
object (shape parameter 1) the interpolant is computed, SetRBFShapeParameter
sets 5 and ComputeInterpolant returns; the state then has an interpolant and
no dirty flag, `input_` holds 5, but the active method still holds 1 and its
solution was computed from 1. Second: SetRBFKernel sets Gaussian on the
method by enum, LoadConstraintsFromFiles and ComputeInterpolant return; the
state has an interpolant and no dirty flag, and the active method holds
Cubic. -/
theorem solve_with_outdated_parameters :
    (run sample_collaborators
        [.ComputeInterpolant, .SetRBFShapeParameter 5, .ComputeInterpolant]
        constructed_state).have_interpolant_ = true ∧
      (run sample_collaborators
        [.ComputeInterpolant, .SetRBFShapeParameter 5, .ComputeInterpolant]
        constructed_state).parameters_changed_ = false ∧
      (run sample_collaborators
        [.ComputeInterpolant, .SetRBFShapeParameter 5, .ComputeInterpolant]
        constructed_state).constraints_changed_ = false ∧
      (run sample_collaborators
        [.ComputeInterpolant, .SetRBFShapeParameter 5, .ComputeInterpolant]
        constructed_state).input_.parameters.shape_parameter = 5 ∧
      ((run sample_collaborators
        [.ComputeInterpolant, .SetRBFShapeParameter 5, .ComputeInterpolant]
        constructed_state).method_.map fun m => m.ui_parameters.shape_parameter) = some 1 ∧
      ((run sample_collaborators
        [.ComputeInterpolant, .SetRBFShapeParameter 5, .ComputeInterpolant]
        constructed_state).method_.map fun m => m.solution) =
          some (some { weights := [1], coefficients := [] }) ∧
      (run sample_collaborators
        [.SetRBFKernel .Gaussian, .LoadConstraintsFromFiles, .ComputeInterpolant]
        constructed_state).have_interpolant_ = true ∧
      (run sample_collaborators
        [.SetRBFKernel .Gaussian, .LoadConstraintsFromFiles, .ComputeInterpolant]
        constructed_state).parameters_changed_ = false ∧
      (run sample_collaborators
        [.SetRBFKernel .Gaussian, .LoadConstraintsFromFiles, .ComputeInterpolant]
        constructed_state).constraints_changed_ = false ∧
      ((run sample_collaborators
        [.SetRBFKernel .Gaussian, .LoadConstraintsFromFiles, .ComputeInterpolant]
        constructed_state).method_.map fun m => m.ui_parameters.basis_type) = some .Cubic := by
  refine ⟨?_, ?_, ?_, ?_, ?_, ?_, ?_, ?_, ?_, ?_⟩ <;> rfl

/-! ## Downstream readiness -/

/-- The two reloads do not write to `evaluation_completed_`. -/
theorem reload_keeps_evaluation_completed (C : Collaborators) (s : Surfe_API) :
    (LoadConstraintsFromFiles C s).state.evaluation_completed_ = s.evaluation_completed_ ∧
      (GetParametersAndConstraints C s).state.evaluation_completed_ = s.evaluation_completed_ := by
  have key : ∀ t : Surfe_API,
      (recreate_and_load C t).state.evaluation_completed_ = t.evaluation_completed_ := by
    intro t
    unfold recreate_and_load
    cases hg : get_method t.input_.parameters with
    | error e => simp [hg]
    | ok m =>
      simp only [hg]
      rcases build_constraints_spec C { t with method_ := some m } m rfl with
        ⟨e, _, hb⟩ | ⟨_, hb⟩ <;> simp [hb]
  exact ⟨key s, key _⟩

/-- C8, the code at the failing input. The constructed sample object is
solved, given a grid and evaluated: `evaluation_completed_` is set. Each of
the two reloads then returns normally and sets `constraints_changed_`, but
leaves `evaluation_completed_` set. -/
theorem reload_leaves_evaluation_completed_set :
    (run sample_collaborators
        [.ComputeInterpolant, .BuildRegularGrid_bounds 0 1 0 1 0 1 1, .GetEvaluatedGrid]
        constructed_state).evaluation_completed_ = true ∧
      (LoadConstraintsFromFiles sample_collaborators
        (run sample_collaborators
          [.ComputeInterpolant, .BuildRegularGrid_bounds 0 1 0 1 0 1 1, .GetEvaluatedGrid]
          constructed_state)).result = .returned () ∧
      (LoadConstraintsFromFiles sample_collaborators
        (run sample_collaborators
          [.ComputeInterpolant, .BuildRegularGrid_bounds 0 1 0 1 0 1 1, .GetEvaluatedGrid]
          constructed_state)).state.constraints_changed_ = true ∧
      (LoadConstraintsFromFiles sample_collaborators
        (run sample_collaborators
          [.ComputeInterpolant, .BuildRegularGrid_bounds 0 1 0 1 0 1 1, .GetEvaluatedGrid]
          constructed_state)).state.evaluation_completed_ = true ∧
      (GetParametersAndConstraints sample_collaborators
        (run sample_collaborators
          [.ComputeInterpolant, .BuildRegularGrid_bounds 0 1 0 1 0 1 1, .GetEvaluatedGrid]
          constructed_state)).result = .returned () ∧
      (GetParametersAndConstraints sample_collaborators
        (run sample_collaborators
          [.ComputeInterpolant, .BuildRegularGrid_bounds 0 1 0 1 0 1 1, .GetEvaluatedGrid]
          constructed_state)).state.evaluation_completed_ = true := by
  refine ⟨?_, ?_, ?_, ?_, ?_, ?_⟩ <;> decide!

/-- C9, the code at two failing inputs. First: the constructed sample object
is solved, given a 2 x 2 x 2 grid and evaluated, then BuildRegularGrid
installs a 3 x 3 x 3 grid. `evaluation_completed_` is still set and no dirty
flag is, so GetIsoSurfaces, GetEvaluatedVTKGridString and
WriteVTKEvaluationGrid skip the evaluation and consume the new grid, which
carries no scalar value. Second: with shape parameter 5 pending in `input_`
the object is solved (from 1), given a grid and evaluated (every value 1),
then reloaded and solved again (from 5). The consumers skip the evaluation
and hand out the values 1, while the current interpolant gives 5. -/
theorem unevaluated_grid_is_consumed :
    (run sample_collaborators
        [.ComputeInterpolant, .BuildRegularGrid_bounds 0 1 0 1 0 1 1, .GetEvaluatedGrid,
          .BuildRegularGrid_bounds 0 2 0 2 0 2 1] constructed_state).evaluation_completed_ = true ∧
      (GetIsoSurfaces sample_collaborators (run sample_collaborators
        [.ComputeInterpolant, .BuildRegularGrid_bounds 0 1 0 1 0 1 1, .GetEvaluatedGrid,
          .BuildRegularGrid_bounds 0 2 0 2 0 2 1] constructed_state)).result =
        .returned { grid := { nx := 3, ny := 3, nz := 3, origin := { x := 0, y := 0, z := 0 },
                              spacing := 1, scalars := none }
                    values := [] } ∧
      (GetEvaluatedVTKGridString sample_collaborators (run sample_collaborators
        [.ComputeInterpolant, .BuildRegularGrid_bounds 0 1 0 1 0 1 1, .GetEvaluatedGrid,
          .BuildRegularGrid_bounds 0 2 0 2 0 2 1] constructed_state)).result =
        .returned { nx := 3, ny := 3, nz := 3, origin := { x := 0, y := 0, z := 0 },
                    spacing := 1, scalars := none } ∧
      (WriteVTKEvaluationGrid sample_collaborators (run sample_collaborators
        [.ComputeInterpolant, .BuildRegularGrid_bounds 0 1 0 1 0 1 1, .GetEvaluatedGrid,
          .BuildRegularGrid_bounds 0 2 0 2 0 2 1] constructed_state) "grid.vti").result =
        .returned { nx := 3, ny := 3, nz := 3, origin := { x := 0, y := 0, z := 0 },
                    spacing := 1, scalars := none } ∧
      (GetEvaluatedVTKGridString sample_collaborators (run sample_collaborators
        [.SetRBFShapeParameter 5, .ComputeInterpolant, .BuildRegularGrid_bounds 0 1 0 1 0 1 1,
          .GetEvaluatedGrid, .LoadConstraintsFromFiles, .ComputeInterpolant]
        constructed_state)).result =
        .returned { nx := 2, ny := 2, nz := 2, origin := { x := 0, y := 0, z := 0 },
                    spacing := 1, scalars := some [1, 1, 1, 1, 1, 1, 1, 1] } ∧
      (EvaluateInterpolantAtPoint sample_collaborators (run sample_collaborators
        [.SetRBFShapeParameter 5, .ComputeInterpolant, .BuildRegularGrid_bounds 0 1 0 1 0 1 1,
          .GetEvaluatedGrid, .LoadConstraintsFromFiles, .ComputeInterpolant]
        constructed_state) 0 0 0).result = .returned 5 := by
  refine ⟨?_, ?_, ?_, ?_, ?_, ?_⟩ <;> decide!

/-! ## The flags along a run -/

theorem Advances.refl (s : Surfe_API) : Advances s s :=
  ⟨fun h => h, fun h => Or.inl h⟩

theorem Advances.trans {s t u : Surfe_API} (h1 : Advances s t) (h2 : Advances t u) :
    Advances s u := by
  refine ⟨fun h => h2.1 (h1.1 h), fun h => ?_⟩
  rcases h2.2 h with h' | h'
  · rcases h1.2 h' with h'' | h''
    · exact Or.inl h''
    · exact Or.inr (h2.1 h'')
  · exact Or.inr h'

/-- A state that differs from `s` at most in members other than the two
flags advances `s`. -/
theorem Advances.of_eq {s t : Surfe_API} (h1 : t.have_interpolant_ = s.have_interpolant_)
    (h2 : t.evaluation_completed_ = s.evaluation_completed_) : Advances s t :=
  ⟨fun h => by rw [h1]; exact h, fun h => Or.inl (by rw [← h2]; exact h)⟩

theorem recreate_and_load_advances (C : Collaborators) (t : Surfe_API) :
    Advances t (recreate_and_load C t).state := by
  apply Advances.of_eq
  all_goals
    unfold recreate_and_load
    cases hg : get_method t.input_.parameters with
    | error e => simp [hg]
    | ok m =>
      simp only [hg]
      rcases build_constraints_spec C { t with method_ := some m } m rfl with
        ⟨e, _, hb⟩ | ⟨_, hb⟩ <;> simp [hb]

theorem ComputeInterpolant_advances (C : Collaborators) (s : Surfe_API) :
    Advances s (ComputeInterpolant C s).state := by
  obtain ⟨_, f2, _⟩ := ComputeInterpolant_frame C s
  rcases ComputeInterpolant_cases C s with ⟨_, _, g1, _⟩ | ⟨_, _, g1, _⟩
  · exact ⟨fun _ => g1, fun _ => Or.inr g1⟩
  · exact Advances.of_eq g1 f2

/-- The loop over the grid keeps `have_interpolant_`, the flags and the
method. -/
theorem evaluate_on_grid_frame (C : Collaborators) (s : Surfe_API) :
    (evaluate_on_grid C s).state.have_interpolant_ = s.have_interpolant_ ∧
      (evaluate_on_grid C s).state.parameters_changed_ = s.parameters_changed_ ∧
      (evaluate_on_grid C s).state.constraints_changed_ = s.constraints_changed_ ∧
      (evaluate_on_grid C s).state.method_ = s.method_ := by
  unfold evaluate_on_grid
  cases s.grid_ with
  | none => exact ⟨rfl, rfl, rfl, rfl⟩
  | some g =>
    dsimp only
    split
    · split_ifs <;> exact ⟨rfl, rfl, rfl, rfl⟩
    · exact ⟨rfl, rfl, rfl, rfl⟩

theorem GetEvaluatedGrid_advances (C : Collaborators) (s : Surfe_API) :
    Advances s (GetEvaluatedGrid C s).state := by
  unfold GetEvaluatedGrid
  cases s.grid_ with
  | none => exact Advances.refl s
  | some g =>
    dsimp only
    split_ifs with hguard
    · rcases hres : (ComputeInterpolant C s).result with _ | e | _
      · dsimp only
        rcases ComputeInterpolant_cases C s with ⟨_, _, g1, _⟩ | ⟨_, ⟨e, he⟩, _⟩
        · have h := (evaluate_on_grid_frame C (ComputeInterpolant C s).state).1
          exact ⟨fun _ => by rw [h]; exact g1, fun _ => Or.inr (by rw [h]; exact g1)⟩
        · rw [he] at hres
          cases hres
      · exact ComputeInterpolant_advances C s
      · exact ComputeInterpolant_advances C s
    · have hi : s.have_interpolant_ = true := by
        cases h : s.have_interpolant_
        · simp [h] at hguard
        · rfl
      have h := (evaluate_on_grid_frame C s).1
      exact ⟨fun _ => by rw [h]; exact hi, fun _ => Or.inr (by rw [h]; exact hi)⟩

theorem ensure_evaluated_advances (C : Collaborators) (s : Surfe_API) :
    Advances s (ensure_evaluated C s).state := by
  unfold ensure_evaluated
  cases s.grid_ with
  | none => exact Advances.refl s
  | some g =>
    dsimp only
    split_ifs
    · exact GetEvaluatedGrid_advances C s
    · exact Advances.refl s

/-- The three consumers leave the state the guard left. -/
theorem consumers_state (C : Collaborators) (s : Surfe_API) (filename : String) :
    (GetIsoSurfaces C s).state = (ensure_evaluated C s).state ∧
      (GetEvaluatedVTKGridString C s).state = (ensure_evaluated C s).state ∧
      (WriteVTKEvaluationGrid C s filename).state = (ensure_evaluated C s).state := by
  unfold GetIsoSurfaces GetEvaluatedVTKGridString WriteVTKEvaluationGrid
  refine ⟨?_, ?_, ?_⟩
  · rcases (ensure_evaluated C s).result with _ | e | _
    · dsimp only
      split <;> rfl
    · rfl
    · rfl
  · rcases (ensure_evaluated C s).result with _ | e | _
    · dsimp only
      split <;> rfl
    · rfl
    · rfl
  · rcases (ensure_evaluated C s).result with _ | e | _
    · dsimp only
      split <;> rfl
    · rfl
    · rfl

/-- A BuildRegularGrid overload leaves the state as it was or installs a
grid; it writes to no other member. -/
theorem BuildRegularGrid_frame (C : Collaborators) (s : Surfe_API) (c : Call)
    (hc : (∃ a b r p, c = .BuildRegularGrid_z a b r p) ∨
      (∃ a b c' d e f r, c = .BuildRegularGrid_bounds a b c' d e f r) ∨
      (∃ p, c = .BuildRegularGrid_padding p) ∨ (∃ r p, c = .BuildRegularGrid_resolution r p)) :
    (exec C c s).state = s ∨ ∃ g, (exec C c s).state = { s with grid_ := some g } := by
  have hspatial : ∀ spatial p d, (grid_from_spatial s spatial p d).state = s ∨
      ∃ g, (grid_from_spatial s spatial p d).state = { s with grid_ := some g } := by
    intro spatial p d
    unfold grid_from_spatial
    dsimp only
    repeat' split
    all_goals first | exact Or.inl rfl | exact Or.inr ⟨_, rfl⟩
  rcases hc with ⟨a, b, r, p, rfl⟩ | ⟨a, b, c', d, e, f, r, rfl⟩ | ⟨p, rfl⟩ | ⟨r, p, rfl⟩
  · simp only [exec, BuildRegularGrid_z]
    repeat' split
    all_goals first | exact Or.inl rfl | exact Or.inr ⟨_, rfl⟩
  · simp only [exec, BuildRegularGrid_bounds]
    repeat' split
    all_goals first | exact Or.inl rfl | exact Or.inr ⟨_, rfl⟩
  · simp only [exec, BuildRegularGrid_padding]
    split
    · exact Or.inl rfl
    · exact hspatial _ _ _
  · simp only [exec, BuildRegularGrid_resolution]
    split
    · exact Or.inl rfl
    · exact hspatial _ _ _

/-- A listed mutation leaves the state as it was (when it throws) or clears
`evaluation_completed_`; it keeps `have_interpolant_`. -/
theorem mutation_advances (C : Collaborators) (s : Surfe_API) (c : Call)
    (hc : c.invalidates.isSome = true) : Advances s (exec C c s).state := by
  cases hr : (exec C c s).result with
  | returned u =>
    obtain ⟨f, hf⟩ := Option.isSome_iff_exists.mp hc
    obtain ⟨_, h2, h3, _⟩ := mutation_sets_flag C s c f hf hr
    exact ⟨fun h => by rw [h3]; exact h, fun h => by rw [h2] at h; cases h⟩
  | threw e =>
    have : (exec C c s).state = s := by
      cases c <;> simp [Call.invalidates] at hc
      case SetModellingMode mode =>
        rcases SetModellingMode_cases s mode with ⟨_, h2⟩ | ⟨h1, _⟩
        · exact h2
        · simp [exec, h1] at hr
      case SetRBFKernel_name n =>
        rcases SetRBFKernel_name_cases s n with ⟨_, h2⟩ | ⟨h1, _⟩
        · exact h2
        · simp [exec, h1] at hr
      all_goals
        cases hm : s.method_ <;>
        simp [exec, AddInterfaceConstraint, AddPlanarConstraintwNormal,
          AddPlanarConstraintwStrikeDipPolarity, AddPlanarConstraintwAzimuthDipPolarity,
          AddTangentConstraint, AddInequalityConstraint, add_constraint, set_on_method,
          set_on_input, set_data_file, SetRegressionSmoothing, SetGreedyAlgorithm, SetRBFKernel,
          SetRBFShapeParameter, SetPolynomialOrder, SetGlobalAnisotropy, SetRestrictedRange,
          SetInterfaceUncertainty, SetAngularUncertainty, SetInterfaceDataFile,
          SetPlanarDataFile, SetTangentDataFile, SetInequalityDataFile, hm] at hr ⊢
    rw [this]
    exact Advances.refl s
  | undefined =>
    exfalso
    cases c <;> simp [Call.invalidates] at hc
    case SetModellingMode mode =>
      rcases SetModellingMode_cases s mode with ⟨h1, _⟩ | ⟨h1, _⟩ <;> simp [exec, h1] at hr
    case SetRBFKernel_name n =>
      rcases SetRBFKernel_name_cases s n with ⟨h1, _⟩ | ⟨h1, _⟩ <;> simp [exec, h1] at hr
    all_goals
      cases hm : s.method_ <;>
      simp [exec, AddInterfaceConstraint, AddPlanarConstraintwNormal,
        AddPlanarConstraintwStrikeDipPolarity, AddPlanarConstraintwAzimuthDipPolarity,
        AddTangentConstraint, AddInequalityConstraint, add_constraint, set_on_method,
        set_on_input, set_data_file, SetRegressionSmoothing, SetGreedyAlgorithm, SetRBFKernel,
        SetRBFShapeParameter, SetPolynomialOrder, SetGlobalAnisotropy, SetRestrictedRange,
        SetInterfaceUncertainty, SetAngularUncertainty, SetInterfaceDataFile,
        SetPlanarDataFile, SetTangentDataFile, SetInequalityDataFile, hm] at hr

/-- Every call keeps `have_interpolant_` once set and sets
`evaluation_completed_` only in a state with an interpolant. -/
theorem exec_advances (C : Collaborators) (c : Call) (s : Surfe_API) :
    Advances s (exec C c s).state := by
  cases c
  case GetParametersAndConstraints =>
    have h := recreate_and_load_advances C
      { s with input_ := C.GetDialogParameters
               parameters_changed_ := true
               constraint_files_changed_ := true }
    exact ⟨h.1, h.2⟩
  case LoadConstraintsFromFiles => exact recreate_and_load_advances C s
  case ComputeInterpolant => exact ComputeInterpolant_advances C s
  case EvaluateInterpolantAtPoint x y z =>
    have : (exec C (.EvaluateInterpolantAtPoint x y z) s).state = s := by
      simp only [exec, Outcome.void, EvaluateInterpolantAtPoint]
      repeat' split
      all_goals rfl
    rw [this]
    exact Advances.refl s
  case EvaluateVectorInterpolantAtPoint x y z =>
    have : (exec C (.EvaluateVectorInterpolantAtPoint x y z) s).state = s := by
      simp only [exec, Outcome.void, EvaluateVectorInterpolantAtPoint]
      repeat' split
      all_goals rfl
    rw [this]
    exact Advances.refl s
  case BuildRegularGrid_z a b r p =>
    rcases BuildRegularGrid_frame C s (.BuildRegularGrid_z a b r p)
      (Or.inl ⟨a, b, r, p, rfl⟩) with h | ⟨g, h⟩ <;> rw [h]
    · exact Advances.refl s
    · exact Advances.of_eq rfl rfl
  case BuildRegularGrid_bounds a b c' d e f r =>
    rcases BuildRegularGrid_frame C s (.BuildRegularGrid_bounds a b c' d e f r)
      (Or.inr (Or.inl ⟨a, b, c', d, e, f, r, rfl⟩)) with h | ⟨g, h⟩ <;> rw [h]
    · exact Advances.refl s
    · exact Advances.of_eq rfl rfl
  case BuildRegularGrid_padding p =>
    rcases BuildRegularGrid_frame C s (.BuildRegularGrid_padding p)
      (Or.inr (Or.inr (Or.inl ⟨p, rfl⟩))) with h | ⟨g, h⟩ <;> rw [h]
    · exact Advances.refl s
    · exact Advances.of_eq rfl rfl
  case BuildRegularGrid_resolution r p =>
    rcases BuildRegularGrid_frame C s (.BuildRegularGrid_resolution r p)
      (Or.inr (Or.inr (Or.inr ⟨r, p, rfl⟩))) with h | ⟨g, h⟩ <;> rw [h]
    · exact Advances.refl s
    · exact Advances.of_eq rfl rfl
  case GetEvaluatedGrid => exact GetEvaluatedGrid_advances C s
  case GetIsoSurfaces =>
    have h := ensure_evaluated_advances C s
    rw [← (consumers_state C s "").1] at h
    exact h
  case GetEvaluatedVTKGridString =>
    have h := ensure_evaluated_advances C s
    rw [← (consumers_state C s "").2.1] at h
    exact h
  case WriteVTKEvaluationGrid f =>
    have h := ensure_evaluated_advances C s
    rw [← (consumers_state C s f).2.2] at h
    exact h
  all_goals exact mutation_advances C s _ rfl

/-- In every state of the program a grid counts as evaluated only when there
is an interpolant. -/
theorem reachable_consistent (s : Surfe_API) (h : Reachable s) : Consistent s := by
  induction h with
  | new p0 => intro h; cases h
  | new_with C params s hs =>
    intro h
    exfalso
    unfold Surfe_API.new_with at hs
    dsimp only at hs
    split at hs
    · cases hs
    · split at hs
      · cases hs
      · injection hs with hs
        rw [← hs] at h
        cases h
  | call C c s _ _ ih =>
    intro h
    rcases (exec_advances C c s).2 h with h' | h'
    · exact (exec_advances C c s).1 (ih h')
    · exact h'

/-! ## Grid queries re-solve first -/

/-- GetEvaluatedGrid on a state with a grid that needs a re-solve: it ends as
the re-solve ended when that fails, and otherwise evaluates the grid with the
method the re-solve left. -/
theorem GetEvaluatedGrid_resolves (C : Collaborators) (s : Surfe_API) (g : vtkImageData)
    (hg : s.grid_ = some g)
    (hd : s.have_interpolant_ = false ∨ s.parameters_changed_ = true ∨
      s.constraints_changed_ = true) :
    ((ComputeInterpolant C s).result ≠ .returned () →
      (GetEvaluatedGrid C s).void = ComputeInterpolant C s) ∧
    ((ComputeInterpolant C s).result = .returned () →
      ∃ m', (ComputeInterpolant C s).state.method_ = some m' ∧
        GetEvaluatedGrid C s =
          { result := .returned { g with scalars := some (scalar_field C m' g) }
            state := { (ComputeInterpolant C s).state with
                         grid_ := some { g with scalars := some (scalar_field C m' g) }
                         evaluation_completed_ := true } }) := by
  have hguard : (!s.have_interpolant_ || s.parameters_changed_ || s.constraints_changed_) = true := by
    rcases hd with h | h | h <;> simp [h]
  have hgrid : (ComputeInterpolant C s).state.grid_ = some g := by
    rw [(ComputeInterpolant_frame C s).1, hg]
  unfold GetEvaluatedGrid
  simp only [hg, hguard, if_true]
  constructor
  · intro hne
    rcases hres : (ComputeInterpolant C s).result with u | e | _
    · exact absurd hres hne
    · cases hc : ComputeInterpolant C s with
      | mk r st =>
        rw [hc] at hres
        simp only at hres
        simp [Outcome.void, hres]
    · cases hc : ComputeInterpolant C s with
      | mk r st =>
        rw [hc] at hres
        simp only at hres
        simp [Outcome.void, hres]
  · intro hok
    rcases ComputeInterpolant_cases C s with ⟨_, _, _, _, _, g4⟩ | ⟨_, ⟨e, he⟩, _⟩
    · obtain ⟨m', hm'⟩ := Option.isSome_iff_exists.mp g4
      refine ⟨m', hm', ?_⟩
      simp only [hok, evaluate_on_grid, hgrid, hm']
    · rw [he] at hok
      cases hok

/-- C7. In a state that has a grid (and a method: without one
ComputeInterpolant throws grbf_method_is_null, and so does the query) and in
which a dirty flag is set or there is no interpolant, each grid query first
runs ComputeInterpolant: GetEvaluatedGrid in any such state, and
GetIsoSurfaces, GetEvaluatedVTKGridString and WriteVTKEvaluationGrid in any
such state of the program. When the re-solve fails the query ends exactly as
ComputeInterpolant ended, with no grid point evaluated; it does not fail by a
staleness guard. When the re-solve succeeds the query returns, the grid
carries the array the evaluation loop fills from the method the re-solve
left, `have_interpolant_` and `evaluation_completed_` are set and both dirty
flags are clear. -/
theorem grid_queries_resolve_first (C : Collaborators) (s : Surfe_API) (c : Call)
    (g : vtkImageData)
    (hq : c.isGridQuery = true) (hs : c = .GetEvaluatedGrid ∨ Reachable s)
    (hg : s.grid_ = some g)
    (hd : s.have_interpolant_ = false ∨ s.parameters_changed_ = true ∨
      s.constraints_changed_ = true) :
    ((ComputeInterpolant C s).result ≠ .returned () → exec C c s = ComputeInterpolant C s) ∧
    ((ComputeInterpolant C s).result = .returned () →
      ∃ m', (ComputeInterpolant C s).state.method_ = some m' ∧
        exec C c s =
          { result := .returned ()
            state := { (ComputeInterpolant C s).state with
                         grid_ := some { g with scalars := some (scalar_field C m' g) }
                         evaluation_completed_ := true } } ∧
        (exec C c s).state.have_interpolant_ = true ∧
        (exec C c s).state.parameters_changed_ = false ∧
        (exec C c s).state.constraints_changed_ = false ∧
        (exec C c s).state.evaluation_completed_ = true) := by
  obtain ⟨hfail, hsucc⟩ := GetEvaluatedGrid_resolves C s g hg hd
  have hflags : (ComputeInterpolant C s).result = .returned () →
      (ComputeInterpolant C s).state.have_interpolant_ = true ∧
      (ComputeInterpolant C s).state.parameters_changed_ = false ∧
      (ComputeInterpolant C s).state.constraints_changed_ = false := by
    intro hok
    rcases ComputeInterpolant_cases C s with ⟨_, _, g1, g2, g3, _⟩ | ⟨_, ⟨e, he⟩, _⟩
    · exact ⟨g1, g3, g2⟩
    · rw [he] at hok
      cases hok
  rcases hs with rfl | hr
  · constructor
    · intro hne
      exact hfail hne
    · intro hok
      obtain ⟨m', hm', hE⟩ := hsucc hok
      obtain ⟨k1, k2, k3⟩ := hflags hok
      refine ⟨m', hm', ?_⟩
      simp only [exec, hE, Outcome.void]
      exact ⟨trivial, k1, k2, k3, trivial⟩
  have hguard : (!s.evaluation_completed_ || s.parameters_changed_ || s.constraints_changed_)
      = true := by
    rcases hd with h | h | h
    · have hc := reachable_consistent s hr
      cases he : s.evaluation_completed_
      · simp
      · rw [hc he] at h
        cases h
    · simp [h]
    · simp [h]
  have hens : ensure_evaluated C s = (GetEvaluatedGrid C s).void := by
    simp [ensure_evaluated, hg, hguard]
  have hne_cases : (ComputeInterpolant C s).result ≠ .returned () →
      (∃ e, (ensure_evaluated C s).result = .threw e) ∨
        (ensure_evaluated C s).result = .undefined := by
    intro hne
    rw [hens, hfail hne]
    rcases hres : (ComputeInterpolant C s).result with u | e | _
    · exact absurd hres hne
    · exact Or.inl ⟨e, rfl⟩
    · exact Or.inr rfl
  constructor
  · intro hne
    have hE := hfail hne
    cases c <;> simp [Call.isGridQuery] at hq
    case GetEvaluatedGrid => exact hE
    case GetIsoSurfaces =>
      rw [← hE, ← hens]
      simp only [exec, GetIsoSurfaces, Outcome.void]
      rcases hne_cases hne with ⟨e, he⟩ | he
      all_goals
        cases hc : ensure_evaluated C s with
        | mk r st =>
          rw [hc] at he
          simp only at he
          simp [he]
    case GetEvaluatedVTKGridString =>
      rw [← hE, ← hens]
      simp only [exec, GetEvaluatedVTKGridString, Outcome.void]
      rcases hne_cases hne with ⟨e, he⟩ | he
      all_goals
        cases hc : ensure_evaluated C s with
        | mk r st =>
          rw [hc] at he
          simp only at he
          simp [he]
    case WriteVTKEvaluationGrid f =>
      rw [← hE, ← hens]
      simp only [exec, WriteVTKEvaluationGrid, Outcome.void]
      rcases hne_cases hne with ⟨e, he⟩ | he
      all_goals
        cases hc : ensure_evaluated C s with
        | mk r st =>
          rw [hc] at he
          simp only at he
          simp [he]
  · intro hok
    obtain ⟨m', hm', hE⟩ := hsucc hok
    obtain ⟨k1, k2, k3⟩ := hflags hok
    refine ⟨m', hm', ?_⟩
    have hens' : ensure_evaluated C s =
        { result := .returned ()
          state := { (ComputeInterpolant C s).state with
                       grid_ := some { g with scalars := some (scalar_field C m' g) }
                       evaluation_completed_ := true } } := by
      rw [hens, hE]
      rfl
    cases c <;> simp [Call.isGridQuery] at hq
    case GetEvaluatedGrid =>
      simp only [exec, hE, Outcome.void]
      exact ⟨trivial, k1, k2, k3, trivial⟩
    case GetIsoSurfaces =>
      simp only [exec, GetIsoSurfaces, hens', hm', Outcome.void]
      exact ⟨trivial, k1, k2, k3, trivial⟩
    case GetEvaluatedVTKGridString =>
      simp only [exec, GetEvaluatedVTKGridString, hens', Outcome.void]
      exact ⟨trivial, k1, k2, k3, trivial⟩
    case WriteVTKEvaluationGrid f =>
      simp only [exec, WriteVTKEvaluationGrid, hens', Outcome.void]
      exact ⟨trivial, k1, k2, k3, trivial⟩

/-- Witness of C7: the solved sample state, given a grid and a pending
parameter change; GetIsoSurfaces re-solves, evaluates and returns. -/
theorem grid_queries_resolve_first_witness :
    (exec sample_collaborators .GetIsoSurfaces
        (run sample_collaborators
          [.BuildRegularGrid_bounds 0 1 0 1 0 1 1, .SetPolynomialOrder 2] solved_state)).result =
        .returned () ∧
      (exec sample_collaborators .GetIsoSurfaces
        (run sample_collaborators
          [.BuildRegularGrid_bounds 0 1 0 1 0 1 1, .SetPolynomialOrder 2]
          solved_state)).state.have_interpolant_ = true ∧
      (exec sample_collaborators .GetIsoSurfaces
        (run sample_collaborators
          [.BuildRegularGrid_bounds 0 1 0 1 0 1 1, .SetPolynomialOrder 2]
          solved_state)).state.parameters_changed_ = false ∧
      (exec sample_collaborators .GetIsoSurfaces
        (run sample_collaborators
          [.BuildRegularGrid_bounds 0 1 0 1 0 1 1, .SetPolynomialOrder 2]
          solved_state)).state.constraints_changed_ = false ∧
      (exec sample_collaborators .GetIsoSurfaces
        (run sample_collaborators
          [.BuildRegularGrid_bounds 0 1 0 1 0 1 1, .SetPolynomialOrder 2]
          solved_state)).state.evaluation_completed_ = true := by
  have hreach : Reachable (run sample_collaborators
      [.BuildRegularGrid_bounds 0 1 0 1 0 1 1, .SetPolynomialOrder 2] solved_state) :=
    Reachable.call sample_collaborators (.SetPolynomialOrder 2) _
      (Reachable.call sample_collaborators (.BuildRegularGrid_bounds 0 1 0 1 0 1 1) _
        sample_states_reachable.2.2.2 (by decide!)) (by decide!)
  obtain ⟨m', _, h, k⟩ := (grid_queries_resolve_first sample_collaborators
    (run sample_collaborators
      [.BuildRegularGrid_bounds 0 1 0 1 0 1 1, .SetPolynomialOrder 2] solved_state)
    .GetIsoSurfaces
    { nx := 2, ny := 2, nz := 2, origin := { x := 0, y := 0, z := 0 }, spacing := 1,
      scalars := none }
    rfl (Or.inr hreach) (by decide!) (Or.inr (Or.inl (by decide!)))).2 (by decide!)
  exact ⟨by rw [h], k⟩

/-! ## Rounding to double -/

/-- Whatever the fuel, the logarithm computed for a number below 2^(k+1) is
at most k. -/
theorem log2_floor_le (f n k : Nat) (h : n < 2 ^ (k + 1)) : log2_floor f n ≤ k := by
  induction f generalizing n k with
  | zero => simp [log2_floor]
  | succ f ih =>
    unfold log2_floor
    split_ifs with h2
    · omega
    · cases k with
      | zero => simp at h; omega
      | succ k =>
        have h3 : n / 2 < 2 ^ (k + 1) := by
          rw [pow_succ] at h
          omega
        have := ih (n / 2) k h3
        omega

/-- With fuel `n` or more the logarithm computed for `n` is not too small:
n < 2^(log + 1). -/
theorem lt_pow_log2_floor (f n : Nat) (h : n ≤ f) : n < 2 ^ (log2_floor f n + 1) := by
  induction f generalizing n with
  | zero =>
    have : n = 0 := by omega
    subst this
    simp [log2_floor]
  | succ f ih =>
    unfold log2_floor
    split_ifs with h2
    · simpa using h2
    · have hle : n / 2 ≤ f := by omega
      have := ih (n / 2) hle
      rw [pow_succ]
      omega

/-- The function `pow2` is the integer power of 2. -/
theorem pow2_eq_zpow (k : Int) : pow2 k = (2 : Dbl) ^ k := by
  unfold pow2
  split_ifs with h
  · obtain ⟨n, rfl⟩ := Int.eq_ofNat_of_zero_le h
    simp
  · obtain ⟨n, hn⟩ := Int.eq_ofNat_of_zero_le (show 0 ≤ -k by omega)
    have hk : k = -(n : Int) := by omega
    subst hk
    simp

/-- A power of two is positive. -/
theorem pow2_pos (k : Int) : 0 < pow2 k := by
  rw [pow2_eq_zpow]
  positivity

/-- The function `pow2` is monotone. -/
theorem pow2_mono {a b : Int} (h : a ≤ b) : pow2 a ≤ pow2 b := by
  rw [pow2_eq_zpow, pow2_eq_zpow]
  exact zpow_le_zpow_right₀ (by norm_num) h

/-- The binary exponent of a positive rational below 512 is at most 9. -/
theorem binade_le (q : Dbl) (h0 : 0 < q) (h : q < 512) : binade q ≤ 9 := by
  have hden : q.den < 2 ^ (log2_floor q.den q.den + 1) := lt_pow_log2_floor _ _ le_rfl
  have hnum : q.num < 512 * (q.den : Int) := by
    have hd : (0 : Dbl) < (q.den : Dbl) := by exact_mod_cast q.den_pos
    have h1 : (q.num : Dbl) / (q.den : Dbl) < 512 := by rw [Rat.num_div_den]; exact h
    rw [div_lt_iff₀ hd] at h1
    exact_mod_cast h1
  have hn0 : 0 < q.num := Rat.num_pos.mpr h0
  have hlt : q.num.natAbs < 2 ^ (log2_floor q.den q.den + 9 + 1) := by
    have : (2 : Nat) ^ (log2_floor q.den q.den + 9 + 1) = 512 * 2 ^ (log2_floor q.den q.den + 1) := by
      ring
    rw [this]
    omega
  have hl := log2_floor_le q.num.natAbs q.num.natAbs _ hlt
  unfold binade
  split_ifs <;> omega

/-- The value 360 = 45 * 2^3 is a whole multiple of every power of two up to
2^3. -/
theorem pow2_divides_360 (k : Int) (hk : k ≤ 3) : ∃ M : Int, (360 : Dbl) = M * pow2 k := by
  refine ⟨45 * 2 ^ (3 - k).toNat, ?_⟩
  rw [pow2_eq_zpow]
  obtain ⟨n, hn⟩ := Int.eq_ofNat_of_zero_le (show 0 ≤ 3 - k by omega)
  have hk2 : k = 3 - (n : Int) := by omega
  subst hk2
  have : (3 - (3 - (n : Int))).toNat = n := by omega
  rw [this, zpow_sub₀ (by norm_num)]
  push_cast
  field_simp
  ring

/-- Rounding to nearest does not pass an integer above the argument. -/
theorem round_half_even_le (t : Dbl) (M : Int) (h : t < M) : round_half_even t ≤ M := by
  have : ⌊t⌋ < M := Int.floor_lt.mpr h
  unfold round_half_even
  split_ifs <;> omega

/-- Rounding a non-negative rational to nearest gives a non-negative integer. -/
theorem round_half_even_nonneg (t : Dbl) (h : 0 ≤ t) : 0 ≤ round_half_even t := by
  have : 0 ≤ ⌊t⌋ := Int.floor_nonneg.mpr h
  unfold round_half_even
  split_ifs <;> omega

/-- Rounding to nearest moves the argument by at most one half. -/
theorem round_half_even_near (t : Dbl) : |(round_half_even t : Dbl) - t| ≤ 1 / 2 := by
  have h1 := Int.floor_le t
  have h2 := Int.lt_floor_add_one t
  unfold round_half_even
  rw [abs_le]
  split_ifs with a b c
  · constructor <;> linarith
  · push_cast; constructor <;> linarith
  · constructor <;> linarith
  · push_cast; constructor <;> linarith

/-- Rounding an exact result in [0, 360) to double gives a value in [0, 360],
within 2^-44 of the exact result. -/
theorem round_to_double_bounds (q : Dbl) (h0 : 0 ≤ q) (h : q < 360) :
    0 ≤ round_to_double q ∧ round_to_double q ≤ 360 ∧
      |round_to_double q - q| ≤ 1 / 2 ^ 44 := by
  unfold round_to_double
  split_ifs with hq
  · subst hq
    norm_num
  · have hpos : 0 < q := lt_of_le_of_ne h0 (Ne.symm hq)
    have hb9 : binade q ≤ 9 := binade_le q hpos (by linarith)
    have hb : binade q - 52 ≤ 3 := by omega
    obtain ⟨M, hM⟩ := pow2_divides_360 _ hb
    have hu := pow2_pos (binade q - 52)
    have hu2 : pow2 (binade q - 52) ≤ 1 / 2 ^ 43 := by
      have := pow2_mono (show binade q - 52 ≤ -43 by omega)
      have e : pow2 (-43) = 1 / 2 ^ 43 := by rw [pow2_eq_zpow]; norm_num
      rwa [e] at this
    have ht0 : 0 ≤ q / pow2 (binade q - 52) := div_nonneg h0 hu.le
    have htM : q / pow2 (binade q - 52) < M := by
      rw [div_lt_iff₀ hu, ← hM]
      exact h
    refine ⟨?_, ?_, ?_⟩
    · exact mul_nonneg (by exact_mod_cast round_half_even_nonneg _ ht0) hu.le
    · rw [hM]
      exact mul_le_mul_of_nonneg_right (by exact_mod_cast round_half_even_le _ _ htM) hu.le
    · have hn := round_half_even_near (q / pow2 (binade q - 52))
      have e : (round_half_even (q / pow2 (binade q - 52)) : Dbl) * pow2 (binade q - 52) - q =
          ((round_half_even (q / pow2 (binade q - 52)) : Dbl) - q / pow2 (binade q - 52)) *
            pow2 (binade q - 52) := by
        field_simp
      rw [e, abs_mul, abs_of_pos hu]
      calc _ ≤ (1 / 2 : Dbl) * (1 / 2 ^ 43) :=
            mul_le_mul hn hu2 hu.le (by norm_num)
        _ = 1 / 2 ^ 44 := by norm_num

/-- C11, the code at two failing inputs. With zmin = zmax the cell count
along z is 0. BuildRegularGrid(0, 10, 0, 10, 0, 0, 1) and, on constraints
with x and y bounds [0,10], BuildRegularGrid(zmin = 0, zmax = 0, resolution
= 1, padding = 0) return and install a grid of 11 x 11 x 1 points, where the
property has them throw problem_computing_grid and install nothing. The
auto-bounds overload on a box with the same extents does throw. -/
theorem flat_grid_is_installed :
    cell_count (0 - 0) 1 = some 0 ∧
      BuildRegularGrid_bounds solved_state 0 10 0 10 0 0 1 =
        { result := .returned ()
          state := { solved_state with
            grid_ := some { nx := 11, ny := 11, nz := 1, origin := { x := 0, y := 0, z := 0 },
                            spacing := 1, scalars := none } } } ∧
      BuildRegularGrid_z square_bounds_collaborators solved_state 0 0 1 0 =
        { result := .returned ()
          state := { solved_state with
            grid_ := some { nx := 11, ny := 11, nz := 1, origin := { x := 0, y := 0, z := 0 },
                            spacing := 1, scalars := none } } } ∧
      BuildRegularGrid_resolution flat_box_collaborators solved_state 1 0 =
        { result := .threw (.plain .problem_computing_grid), state := solved_state } := by
  refine ⟨?_, ?_, ?_, ?_⟩ <;> decide!

/-! ## Modelling mode and kernel name -/

/-- Outside 1..5 the table of modes has no entry and SetModellingMode throws,
leaving the state as it was. -/
theorem mode_outside_one_to_five (s : Surfe_API) (mode : Int) (h : ¬ (1 ≤ mode ∧ mode ≤ 5)) :
    model_type_of_mode mode = none ∧
      SetModellingMode s mode =
        { result := .threw (.plain .unknown_modelling_mode), state := s } := by
  have e1 : mode ≠ 1 := by omega
  have e2 : mode ≠ 2 := by omega
  have e3 : mode ≠ 3 := by omega
  have e4 : mode ≠ 4 := by omega
  have e5 : mode ≠ 5 := by omega
  have b1 : (mode == 1) = false := beq_eq_false_iff_ne.mpr e1
  have b2 : (mode == 2) = false := beq_eq_false_iff_ne.mpr e2
  have b3 : (mode == 3) = false := beq_eq_false_iff_ne.mpr e3
  have b4 : (mode == 4) = false := beq_eq_false_iff_ne.mpr e4
  have b5 : (mode == 5) = false := beq_eq_false_iff_ne.mpr e5
  constructor
  · simp only [model_type_of_mode, List.lookup, b1, b2, b3, b4, b5]
  · simp only [SetModellingMode, e1, e2, e3, e4, e5, if_false]

/-- C13. SetModellingMode returns exactly for the modes 1 to 5; it then
stores the model type of the mode (1 Single_surface, 2 Lajaunie_approach, 3
Vector_field, 4 Stratigraphic_horizons, 5 Continuous_property), a type for
which get_method has a class, and sets `parameters_changed_`. For every
other integer it throws unknown_modelling_mode and leaves the whole state,
the stored model type and every flag, as it was. -/
theorem SetModellingMode_accepts_one_to_five (s : Surfe_API) (mode : Int) :
    ((SetModellingMode s mode).result = .returned () ↔ 1 ≤ mode ∧ mode ≤ 5) ∧
    (model_type_of_mode mode = none ↔ ¬ (1 ≤ mode ∧ mode ≤ 5)) ∧
    (∀ t, model_type_of_mode mode = some t →
      SetModellingMode s mode =
        { result := .returned ()
          state := { s with input_ := { s.input_ with
                              parameters := { s.input_.parameters with model_type := t } }
                            parameters_changed_ := true
                            evaluation_completed_ := false } } ∧
      (SetModellingMode s mode).state.input_.parameters.model_type = t ∧
      (SetModellingMode s mode).state.parameters_changed_ = true ∧
      ∃ m, get_method (SetModellingMode s mode).state.input_.parameters = .ok m) ∧
    (model_type_of_mode mode = none →
      SetModellingMode s mode =
        { result := .threw (.plain .unknown_modelling_mode), state := s }) ∧
    model_type_of_mode 1 = some .Single_surface ∧
    model_type_of_mode 2 = some .Lajaunie_approach ∧
    model_type_of_mode 3 = some .Vector_field ∧
    model_type_of_mode 4 = some .Stratigraphic_horizons ∧
    model_type_of_mode 5 = some .Continuous_property := by
  have h1 : mode = 1 ∨ mode = 2 ∨ mode = 3 ∨ mode = 4 ∨ mode = 5 ∨ ¬ (1 ≤ mode ∧ mode ≤ 5) := by
    omega
  refine ⟨?_, ?_, ?_, ?_, rfl, rfl, rfl, rfl, rfl⟩
  · rcases h1 with h | h | h | h | h | h
    · subst h; exact ⟨fun _ => (by omega), fun _ => rfl⟩
    · subst h; exact ⟨fun _ => (by omega), fun _ => rfl⟩
    · subst h; exact ⟨fun _ => (by omega), fun _ => rfl⟩
    · subst h; exact ⟨fun _ => (by omega), fun _ => rfl⟩
    · subst h; exact ⟨fun _ => (by omega), fun _ => rfl⟩
    · rw [(mode_outside_one_to_five s mode h).2]
      exact ⟨fun hr => (by cases hr), fun hr => absurd hr h⟩
  · rcases h1 with h | h | h | h | h | h
    · subst h; exact ⟨fun hn => (by cases hn), fun hn => absurd (by omega) hn⟩
    · subst h; exact ⟨fun hn => (by cases hn), fun hn => absurd (by omega) hn⟩
    · subst h; exact ⟨fun hn => (by cases hn), fun hn => absurd (by omega) hn⟩
    · subst h; exact ⟨fun hn => (by cases hn), fun hn => absurd (by omega) hn⟩
    · subst h; exact ⟨fun hn => (by cases hn), fun hn => absurd (by omega) hn⟩
    · exact ⟨fun _ => h, fun _ => (mode_outside_one_to_five s mode h).1⟩
  · intro t ht
    rcases h1 with h | h | h | h | h | h
    · subst h; cases ht; exact ⟨rfl, rfl, rfl, _, rfl⟩
    · subst h; cases ht; exact ⟨rfl, rfl, rfl, _, rfl⟩
    · subst h; cases ht; exact ⟨rfl, rfl, rfl, _, rfl⟩
    · subst h; cases ht; exact ⟨rfl, rfl, rfl, _, rfl⟩
    · subst h; cases ht; exact ⟨rfl, rfl, rfl, _, rfl⟩
    · rw [(mode_outside_one_to_five s mode h).1] at ht
      cases ht
  · intro hn
    rcases h1 with h | h | h | h | h | h
    · subst h; cases hn
    · subst h; cases hn
    · subst h; cases hn
    · subst h; cases hn
    · subst h; cases hn
    · exact (mode_outside_one_to_five s mode h).2


/-- The strcmp chain and the table of kernel names agree. -/
theorem rbf_of_name_spec (rbf_name : String) (k : RBF) :
    (rbf_name, k) ∈ kernel_names ↔ rbf_of_name rbf_name = some k := by
  unfold rbf_of_name
  simp only [kernel_names, List.mem_cons, Prod.mk.injEq, List.mem_singleton, List.not_mem_nil,
    or_false]
  split_ifs with h1 h2 h3 h4 h5 h6 h7 h8
  all_goals first
    | subst h1 | subst h2 | subst h3 | subst h4 | subst h5 | subst h6 | subst h7 | subst h8
    | skip
  all_goals simp_all
  all_goals exact eq_comm

/-- C14. SetRBFKernel by name returns exactly for the eight names "r3",
"WendlandC2", "r", "Gaussian", "Multiquadratics", "Thin Plate Spline",
"Inverse Multiquadratics", "MaternC4", compared character by character; it
then stores the kernel of the name (Cubic, WendlandC2, R, Gaussian, MQ, TPS,
IMQ, MaternC4) and sets `parameters_changed_`; two different names give two
different kernels. For every other string it throws unknown_rbf and leaves
the whole state, the stored kernel and every flag, as it was. -/
theorem SetRBFKernel_name_accepts_listed (s : Surfe_API) (rbf_name : String) :
    (∀ k, (rbf_name, k) ∈ kernel_names →
      SetRBFKernel_name s rbf_name =
        { result := .returned ()
          state := { s with input_ := { s.input_ with
                              parameters := { s.input_.parameters with basis_type := k } }
                            parameters_changed_ := true
                            evaluation_completed_ := false } } ∧
      (SetRBFKernel_name s rbf_name).state.input_.parameters.basis_type = k ∧
      (SetRBFKernel_name s rbf_name).state.parameters_changed_ = true) ∧
    ((∀ k, (rbf_name, k) ∉ kernel_names) →
      SetRBFKernel_name s rbf_name = { result := .threw (.plain .unknown_rbf), state := s }) ∧
    ((SetRBFKernel_name s rbf_name).result = .returned () ↔ ∃ k, (rbf_name, k) ∈ kernel_names) ∧
    (∀ n₁ n₂ k₁ k₂, (n₁, k₁) ∈ kernel_names → (n₂, k₂) ∈ kernel_names → n₁ ≠ n₂ → k₁ ≠ k₂) ∧
    kernel_names.length = 8 ∧
    rbf_of_name "R3" = none ∧ rbf_of_name "gaussian" = none ∧ rbf_of_name "Gaussian " = none := by
  refine ⟨?_, ?_, ?_, ?_, rfl, by decide, by decide, by decide⟩
  · intro k hk
    have h := (rbf_of_name_spec rbf_name k).mp hk
    have e : SetRBFKernel_name s rbf_name =
        { result := .returned ()
          state := { s with input_ := { s.input_ with
                              parameters := { s.input_.parameters with basis_type := k } }
                            parameters_changed_ := true
                            evaluation_completed_ := false } } := by
      simp only [SetRBFKernel_name, h, set_on_input]
    rw [e]
    exact ⟨rfl, rfl, rfl⟩
  · intro hk
    have h : rbf_of_name rbf_name = none := by
      cases hr : rbf_of_name rbf_name with
      | none => rfl
      | some k => exact absurd ((rbf_of_name_spec rbf_name k).mpr hr) (hk k)
    simp only [SetRBFKernel_name, h]
  · cases hr : rbf_of_name rbf_name with
    | none =>
      simp only [SetRBFKernel_name, hr]
      constructor
      · intro h
        cases h
      · rintro ⟨k, hk⟩
        rw [(rbf_of_name_spec rbf_name k).mp hk] at hr
        cases hr
    | some k =>
      simp only [SetRBFKernel_name, hr, set_on_input]
      exact ⟨fun _ => ⟨k, (rbf_of_name_spec rbf_name k).mpr hr⟩, fun _ => trivial⟩
  · intro n₁ n₂ k₁ k₂ h₁ h₂ hne hk
    subst hk
    simp only [kernel_names, List.mem_cons, Prod.mk.injEq, List.mem_singleton, List.not_mem_nil,
      or_false] at h₁ h₂
    rcases h₁ with ⟨rfl, h₁⟩ | ⟨rfl, h₁⟩ | ⟨rfl, h₁⟩ | ⟨rfl, h₁⟩ | ⟨rfl, h₁⟩ | ⟨rfl, h₁⟩ |
      ⟨rfl, h₁⟩ | ⟨rfl, h₁⟩ <;> subst h₁ <;> simp at h₂ <;> exact hne h₂.symm

/-! ## The on/off setters -/

/-- C15, the code at the failing input. On the solved sample state, whose
method has regression smoothing and the greedy algorithm off,
SetRegressionSmoothing(false, 0) and SetGreedyAlgorithm(false, 0, 0) return
and the method then holds use_regression_smoothing = true and use_greedy =
true: the switch argument is not read. The amounts are stored as given. -/
theorem switch_argument_is_ignored :
    (solved_state.method_.map fun m =>
        (m.ui_parameters.use_regression_smoothing, m.ui_parameters.use_greedy)) =
        some (false, false) ∧
      (SetRegressionSmoothing solved_state false 0).result = .returned () ∧
      ((SetRegressionSmoothing solved_state false 0).state.method_.map fun m =>
        m.ui_parameters.use_regression_smoothing) = some true ∧
      (SetGreedyAlgorithm solved_state false 0 0).result = .returned () ∧
      ((SetGreedyAlgorithm solved_state false 0 0).state.method_.map fun m =>
        m.ui_parameters.use_greedy) = some true ∧
      ((SetRegressionSmoothing solved_state false 3).state.method_.map fun m =>
        m.ui_parameters.smoothing_amount) = some 3 ∧
      ((SetGreedyAlgorithm solved_state false 3 4).state.method_.map fun m =>
        (m.ui_parameters.interface_uncertainty, m.ui_parameters.angular_uncertainty)) =
        some (3, 4) := by
  refine ⟨?_, ?_, ?_, ?_, ?_, ?_, ?_⟩ <;> rfl

/-! ## Ingestion -/

/-- C16. On a state with a method on which every due reader returns,
build_constraints_from_input_files returns with `constraint_files_changed_`
clear and `constraints_changed_` set, the method holding what was read. So
do its callers when the ingestion they start succeeds:
LoadConstraintsFromFiles, GetParametersAndConstraints (on the input of the
dialog) and the constructor from Parameters end with the two flags so;
ComputeInterpolant, which reloads when `constraint_files_changed_` is set,
ends with `constraint_files_changed_` clear, and with `constraints_changed_`
set unless it goes on to complete the solve, which clears it. -/
theorem successful_ingestion_flags (C : Collaborators) (s : Surfe_API)
    (m : GRBF_Modelling_Methods) (hm : s.method_ = some m)
    (hok : (load_all C s.input_ m).thrown = none) :
    build_constraints_from_input_files C s =
        { result := .returned ()
          state := { s with method_ := some (load_all C s.input_ m).method
                            constraint_files_changed_ := false
                            constraints_changed_ := true } } ∧
    (build_constraints_from_input_files C s).state.constraint_files_changed_ = false ∧
    (build_constraints_from_input_files C s).state.constraints_changed_ = true ∧
    (∀ m', get_method s.input_.parameters = .ok m' → (load_all C s.input_ m').thrown = none →
      (LoadConstraintsFromFiles C s).result = .returned () ∧
      (LoadConstraintsFromFiles C s).state.constraint_files_changed_ = false ∧
      (LoadConstraintsFromFiles C s).state.constraints_changed_ = true) ∧
    (∀ m', get_method C.GetDialogParameters.parameters = .ok m' →
      (load_all C C.GetDialogParameters m').thrown = none →
      (GetParametersAndConstraints C s).result = .returned () ∧
      (GetParametersAndConstraints C s).state.constraint_files_changed_ = false ∧
      (GetParametersAndConstraints C s).state.constraints_changed_ = true) ∧
    (∀ params m', get_method params = .ok m' →
      (load_all C (default_input params) m').thrown = none →
      ∃ s', Surfe_API.new_with C params = .ok s' ∧ s'.constraint_files_changed_ = false ∧
        s'.constraints_changed_ = true) ∧
    (s.constraint_files_changed_ = true →
      (ComputeInterpolant C s).state.constraint_files_changed_ = false ∧
      ((ComputeInterpolant C s).result ≠ .returned () →
        (ComputeInterpolant C s).state.constraints_changed_ = true)) := by
  have key : ∀ (t : Surfe_API) (mt : GRBF_Modelling_Methods), t.method_ = some mt →
      (load_all C t.input_ mt).thrown = none →
      build_constraints_from_input_files C t =
        { result := .returned ()
          state := { t with method_ := some (load_all C t.input_ mt).method
                            constraint_files_changed_ := false
                            constraints_changed_ := true } } := by
    intro t mt ht hl
    simp only [build_constraints_from_input_files, ht, hl]
  have hb := key s m hm hok
  refine ⟨hb, by rw [hb], by rw [hb], ?_, ?_, ?_, ?_⟩
  · intro m' hg hl
    have hb' := key { s with method_ := some m' } m' rfl hl
    simp only [LoadConstraintsFromFiles, recreate_and_load, hg, hb']
    exact ⟨trivial, trivial, trivial⟩
  · intro m' hg hl
    have hb' := key { s with input_ := C.GetDialogParameters
                             parameters_changed_ := true
                             constraint_files_changed_ := true
                             method_ := some m' } m' rfl hl
    simp only [GetParametersAndConstraints, recreate_and_load, hg, hb']
    exact ⟨trivial, trivial, trivial⟩
  · intro params m' hg hl
    have hg' : get_method (default_input params).parameters = .ok m' := hg
    have hb' := key
      { input_ := default_input params, method_ := some m', grid_ := none,
        have_interpolant_ := false, have_method_ := true, evaluation_completed_ := false,
        parameters_changed_ := true, constraint_files_changed_ := true,
        constraints_changed_ := false } m' rfl hl
    refine ⟨{ input_ := default_input params
              method_ := some (load_all C (default_input params) m').method
              grid_ := none
              have_interpolant_ := false
              have_method_ := true
              evaluation_completed_ := false
              parameters_changed_ := true
              constraint_files_changed_ := false
              constraints_changed_ := true }, ?_, rfl, rfl⟩
    simp only [Surfe_API.new_with, hg', hb']
  · intro hf
    have hsolve : ComputeInterpolant C s =
        solve_stages C { s with method_ := some (load_all C s.input_ m).method
                                constraint_files_changed_ := false
                                constraints_changed_ := true } := by
      simp only [ComputeInterpolant, hm, hf, if_true, hb]
    rcases solve_stages_spec C
        { s with method_ := some (load_all C s.input_ m).method
                 constraint_files_changed_ := false
                 constraints_changed_ := true } (load_all C s.input_ m).method rfl with
      ⟨_, he⟩ | ⟨_, e, r, _, he⟩
    · rw [hsolve, he]
      exact ⟨rfl, fun h => absurd rfl h⟩
    · rw [hsolve, he]
      exact ⟨rfl, fun _ => rfl⟩

/-- Witness of C16: the solved sample state, given an interface file that the
reader reads. -/
theorem successful_ingestion_flags_witness :
    (build_constraints_from_input_files sample_collaborators
        (exec sample_collaborators (.SetInterfaceDataFile "a.csv")
          solved_state).state).state.constraint_files_changed_ = false ∧
      (build_constraints_from_input_files sample_collaborators
        (exec sample_collaborators (.SetInterfaceDataFile "a.csv")
          solved_state).state).state.constraints_changed_ = true :=
  have h := successful_ingestion_flags sample_collaborators
    (exec sample_collaborators (.SetInterfaceDataFile "a.csv") solved_state).state
    { new_method sample_parameters with solution := some { weights := [1], coefficients := [] } }
    rfl rfl
  ⟨h.2.1, h.2.2.1⟩

/-- C17, the code at two failing inputs. The tangent file is "tangent.csv",
whose extension is "csv". With the planar file "planar.vtk" the tangent
category receives the record of the VTK tangent reader, not the one of the
CSV reader: the extension is taken from the planar file name. With no planar
file no tangent reader is called at all and the tangent category is left
empty, with its use flag set. -/
theorem tangent_format_follows_planar_file :
    two_format_collaborators.get_file_extension "tangent.csv" = "csv" ∧
      two_format_collaborators.csv_tangent "tangent.csv" =
        .records [{ x := 0, y := 0, z := 0, tx := 1, ty := 0, tz := 0 }] ∧
      ((build_constraints_from_input_files two_format_collaborators
          (run sample_collaborators
            [.SetPlanarDataFile "planar.vtk", .SetTangentDataFile "tangent.csv"]
            solved_state)).state.method_.map fun m => m.constraints.tangent) =
        some [{ x := 0, y := 0, z := 0, tx := 0, ty := 1, tz := 0 }] ∧
      ((build_constraints_from_input_files two_format_collaborators
          (run sample_collaborators [.SetTangentDataFile "tangent.csv"]
            solved_state)).state.method_.map fun m =>
          (m.constraints.tangent, m.ui_parameters.use_tangent)) = some ([], true) := by
  refine ⟨?_, ?_, ?_, ?_⟩ <;> rfl

/-! ## Idempotence of point evaluation -/

/-- C19, the code at two failing inputs. The state holds one interface and one
inequality constraint. Without a grid both accessors call through the null
`grid_`: the behaviour is undefined. With a grid of 2 x 2 x 2 points they
return one point and a "level" array of 8 tuples, the level of the
constraint first and 7 tuples that were never written after it, where the
property has exactly one value. -/
theorem level_array_sized_by_grid :
    (one_constraint_state.method_.map fun m =>
        (m.constraints.itrface.length, m.constraints.inequality.length)) = some (1, 1) ∧
      one_constraint_state.grid_ = none ∧
      (GetInterfaceConstraints sample_collaborators one_constraint_state).result = .undefined ∧
      (GetInequalityConstraints sample_collaborators one_constraint_state).result = .undefined ∧
      (GetInterfaceConstraints sample_collaborators
        (BuildRegularGrid_bounds one_constraint_state 0 1 0 1 0 1 1).state).result =
        .returned (some { points := [{ x := 1, y := 2, z := 3 }]
                          level := [7, 0, 0, 0, 0, 0, 0, 0] }) ∧
      (GetInequalityConstraints sample_collaborators
        (BuildRegularGrid_bounds one_constraint_state 0 1 0 1 0 1 1).state).result =
        .returned (some { points := [{ x := 4, y := 5, z := 6 }]
                          level := [8, 0, 0, 0, 0, 0, 0, 0] }) := by
  refine ⟨?_, ?_, ?_, ?_, ?_, ?_⟩ <;> decide!

/-! ## Grid evaluation point by point -/

/-- A loop that writes `f j` to slot `j` for the first `n` slots of a list
leaves `f 0, ..., f (n - 1)` followed by the untouched rest. -/
theorem foldl_set_range {α : Type} (f : Nat → α) (n : Nat) (l : List α) (h : n ≤ l.length) :
    (List.range n).foldl (fun a j => a.set j (f j)) l = (List.range n).map f ++ l.drop n := by
  induction n with
  | zero => simp
  | succ n ih =>
    have hn : n < l.length := h
    rw [List.range_succ, List.foldl_append, ih (Nat.le_of_lt hn), List.drop_eq_getElem_cons hn]
    simp only [List.foldl_cons, List.foldl_nil, List.map_append, List.map_cons, List.map_nil]
    rw [List.set_append_right _ _ (by simp)]
    simp only [List.length_map, List.length_range, Nat.sub_self, List.set_cons_zero,
      List.append_assoc, List.singleton_append]

/-- A count that fits an int survives the conversion: the loop runs once per
unit of it. -/
theorem loop_count_of_fits (n : Nat) (h : (n : Int) ≤ INT_MAX) : loop_count n = n := by
  unfold INT_MAX at h
  unfold loop_count to_int
  omega

/-- On a grid whose number of points fits an int the array "Scalar Field"
holds, tuple by tuple, the interpolant at the grid points. -/
theorem scalar_field_eq_map (C : Collaborators) (m : GRBF_Modelling_Methods) (g : vtkImageData)
    (h : (g.GetNumberOfPoints : Int) ≤ INT_MAX) :
    scalar_field C m g =
      (List.range g.GetNumberOfPoints).map fun j =>
        C.eval_scalar_interpolant_at_point m (g.GetPoint j) := by
  unfold scalar_field
  rw [loop_count_of_fits _ h]
  have hl : g.GetNumberOfPoints ≤ (new_tuples C g.GetNumberOfPoints).length := by
    simp [new_tuples]
  have hf := foldl_set_range
    (fun j => C.eval_scalar_interpolant_at_point m (g.GetPoint j)) g.GetNumberOfPoints
    (new_tuples C g.GetNumberOfPoints) hl
  have hd : (new_tuples C g.GetNumberOfPoints).drop g.GetNumberOfPoints = [] := by
    apply List.drop_eq_nil_of_le
    simp [new_tuples]
  rw [hd, List.append_nil] at hf
  exact hf

/-- When the int that receives the number of points is not positive the loop
does not run and the array keeps what the allocation left. -/
theorem scalar_field_of_no_pass (C : Collaborators) (m : GRBF_Modelling_Methods)
    (g : vtkImageData) (h : loop_count g.GetNumberOfPoints = 0) :
    scalar_field C m g = new_tuples C g.GetNumberOfPoints := by
  unfold scalar_field
  rw [h, List.range_zero, List.foldl_nil]

/-- GetEvaluatedGrid in a solved state with a grid: no re-solve, the grid
with the array the loop leaves. -/
theorem GetEvaluatedGrid_solved (C : Collaborators) (s : Surfe_API) (g : vtkImageData)
    (m : GRBF_Modelling_Methods)
    (hg : s.grid_ = some g) (hm : s.method_ = some m) (hi : s.have_interpolant_ = true)
    (hp : s.parameters_changed_ = false) (hc : s.constraints_changed_ = false) :
    GetEvaluatedGrid C s =
      { result := .returned { g with scalars := some (scalar_field C m g) }
        state := { s with grid_ := some { g with scalars := some (scalar_field C m g) }
                          evaluation_completed_ := true } } := by
  simp only [GetEvaluatedGrid, hg, hi, hp, hc, evaluate_on_grid, hm, Bool.not_true,
    Bool.or_self, Bool.false_eq_true, if_false]

/-- C12, the code at the failing input.
BuildRegularGrid(0, 2047, 0, 1023, 0, 1023, 1) installs a grid of 2^31
points. GetEvaluatedGrid gives the array 2^31 tuples, the 64-bit count, but
`int N` receives -2^31 and the loop does not run: the call returns, sets
`evaluation_completed_`, and the array handed out is the newly allocated one;
its tuple 0 holds what the allocation left (0 here) where the property has
the value of the interpolant at grid point 0, which is 1. -/
theorem huge_grid_is_not_evaluated :
    (BuildRegularGrid_bounds solved_state 0 2047 0 1023 0 1023 1).state =
        { solved_state with grid_ := some huge_grid } ∧
      huge_grid.GetNumberOfPoints = 2147483648 ∧
      to_int 2147483648 = -2147483648 ∧
      loop_count huge_grid.GetNumberOfPoints = 0 ∧
      (GetEvaluatedGrid sample_collaborators { solved_state with grid_ := some huge_grid }).result =
        .returned { huge_grid with scalars := some (new_tuples sample_collaborators 2147483648) } ∧
      (GetEvaluatedGrid sample_collaborators
        { solved_state with grid_ := some huge_grid }).state.evaluation_completed_ = true ∧
      (new_tuples sample_collaborators 2147483648).length = 2147483648 ∧
      (new_tuples sample_collaborators 2147483648)[0]? = some 0 ∧
      (solved_state.method_.map fun m =>
        sample_collaborators.eval_scalar_interpolant_at_point m (huge_grid.GetPoint 0)) =
          some 1 := by
  have hN : huge_grid.GetNumberOfPoints = 2147483648 := by
    simp [vtkImageData.GetNumberOfPoints, huge_grid]
  have hL : loop_count 2147483648 = 0 := by
    simp [loop_count, to_int]
  have hL0 : loop_count huge_grid.GetNumberOfPoints = 0 := by rw [hN, hL]
  refine ⟨by decide!, hN, by simp [to_int], hL0, ?_, ?_, ?_, ?_, rfl⟩
  · rw [GetEvaluatedGrid_solved sample_collaborators _ huge_grid _ rfl rfl rfl rfl rfl,
      scalar_field_of_no_pass _ _ _ hL0, hN]
  · rw [GetEvaluatedGrid_solved sample_collaborators _ huge_grid _ rfl rfl rfl rfl rfl]
  · simp only [new_tuples, List.length_map, List.length_range]
  · unfold new_tuples
    rw [List.getElem?_map, List.getElem?_range (by norm_num)]
    rfl

/-- Where the narrowing does no harm. In a solved state (a method, an
interpolant, no dirty flag) with a grid whose number of points N fits an int,
GetEvaluatedGrid returns the grid with an array "Scalar Field" of exactly N
entries; entry j is what eval_scalar_interpolant_at_point gives at the
coordinates of grid point j, which is also what EvaluateInterpolantAtPoint
returns there; and the loop body for point j writes no tuple other than
j. -/
theorem grid_evaluation_pointwise (C : Collaborators) (s : Surfe_API) (g : vtkImageData)
    (m : GRBF_Modelling_Methods)
    (hg : s.grid_ = some g) (hm : s.method_ = some m) (hi : s.have_interpolant_ = true)
    (hp : s.parameters_changed_ = false) (hc : s.constraints_changed_ = false)
    (hN : (g.GetNumberOfPoints : Int) ≤ INT_MAX) :
    GetEvaluatedGrid C s =
        { result := .returned { g with scalars := some (scalar_field C m g) }
          state := { s with grid_ := some { g with scalars := some (scalar_field C m g) }
                            evaluation_completed_ := true } } ∧
      (scalar_field C m g).length = g.GetNumberOfPoints ∧
      (∀ j, j < g.GetNumberOfPoints →
        (scalar_field C m g)[j]? =
          some (C.eval_scalar_interpolant_at_point m (g.GetPoint j)) ∧
        (EvaluateInterpolantAtPoint C s (g.GetPoint j).x (g.GetPoint j).y (g.GetPoint j).z).result =
          .returned (C.eval_scalar_interpolant_at_point m (g.GetPoint j))) ∧
      (∀ (tuples : List Dbl) (i j : Nat), i ≠ j →
        (evaluate_point C m g tuples j)[i]? = tuples[i]?) := by
  have hmap := scalar_field_eq_map C m g hN
  refine ⟨GetEvaluatedGrid_solved C s g m hg hm hi hp hc, ?_, ?_, ?_⟩
  · rw [hmap]
    simp
  · intro j hj
    constructor
    · rw [hmap, List.getElem?_map, List.getElem?_range hj]
      rfl
    · simp only [EvaluateInterpolantAtPoint, hm, hi, hp, hc, Bool.or_self, Bool.false_eq_true,
        if_true, if_false]
  · intro tuples i j hij
    unfold evaluate_point
    exact List.getElem?_set_ne (Ne.symm hij)

/-- The solved sample state with a grid of 2 x 2 x 2 points: the array has 8
entries. -/
theorem grid_evaluation_pointwise_witness :
    (scalar_field sample_collaborators
        { new_method sample_parameters with solution := some { weights := [1], coefficients := [] } }
        { nx := 2, ny := 2, nz := 2, origin := { x := 0, y := 0, z := 0 }, spacing := 1,
          scalars := none }).length = 8 :=
  (grid_evaluation_pointwise sample_collaborators
    (BuildRegularGrid_bounds solved_state 0 1 0 1 0 1 1).state
    { nx := 2, ny := 2, nz := 2, origin := { x := 0, y := 0, z := 0 }, spacing := 1,
      scalars := none }
    { new_method sample_parameters with solution := some { weights := [1], coefficients := [] } }
    (by decide!) (by decide!) (by decide!) (by decide!) (by decide!) (by decide)).2.1

/-! ## Strike from azimuth -/

/-- C20 as stated fails at the azimuth 89.99999999999999 = 90 - 2^-46, the
largest double below 90. It is a double (rounding leaves it as it is) with
0 <= a < 90; the exact sum a + 270 = 360 - 2^-46 lies below 360, between the
neighbouring doubles 360 - 2^-44 and 360 and three quarters of the way to
360, so it rounds up: the code computes the strike 360, stores what the
strike overload stores for the strike 360, and not what it stores for the
strike a + 270. -/
theorem azimuth_below_90_gives_strike_360 :
    0 ≤ below_90 ∧ below_90 < 90 ∧ round_to_double below_90 = below_90 ∧
      exact_strike below_90 = 360 - 1 / 2 ^ 46 ∧
      strike_of_azimuth below_90 = 360 ∧
      ¬ strike_of_azimuth below_90 < 360 ∧
      AddPlanarConstraintwAzimuthDipPolarity solved_state 1 2 3 below_90 30 1 =
        AddPlanarConstraintwStrikeDipPolarity solved_state 1 2 3 360 30 1 ∧
      AddPlanarConstraintwAzimuthDipPolarity solved_state 1 2 3 below_90 30 1 ≠
        AddPlanarConstraintwStrikeDipPolarity solved_state 1 2 3 (below_90 + 270) 30 1 := by
  decide!

/-- C20, as the code has it. For every azimuth a with 0 <= a < 360,
AddPlanarConstraintwAzimuthDipPolarity(x, y, z, a, dip, polarity) has the
effect of AddPlanarConstraintwStrikeDipPolarity(x, y, z, s, dip, polarity)
with s the double that `a - 90.0` gives when a >= 90 and `a + 270.0` gives
otherwise, that is the exact value e of that sum rounded to double. This s
satisfies 0 <= s <= 360 and lies within 2^-44 of e, and e satisfies
0 <= e < 360 and e = (a - 90) modulo 360. -/
theorem azimuth_strike_rounded (s : Surfe_API) (x y z a dip polarity : Dbl)
    (h0 : 0 ≤ a) (h1 : a < 360) :
    AddPlanarConstraintwAzimuthDipPolarity s x y z a dip polarity =
        AddPlanarConstraintwStrikeDipPolarity s x y z (strike_of_azimuth a) dip polarity ∧
      strike_of_azimuth a = round_to_double (exact_strike a) ∧
      0 ≤ strike_of_azimuth a ∧ strike_of_azimuth a ≤ 360 ∧
      |strike_of_azimuth a - exact_strike a| ≤ 1 / 2 ^ 44 ∧
      0 ≤ exact_strike a ∧ exact_strike a < 360 ∧
      exact_strike a = (a - 90) - 360 * (⌊(a - 90) / 360⌋ : Int) := by
  have hs : strike_of_azimuth a = round_to_double (exact_strike a) := by
    unfold strike_of_azimuth exact_strike
    split_ifs <;> rfl
  have he0 : 0 ≤ exact_strike a := by
    unfold exact_strike
    split_ifs with h
    · linarith
    · linarith
  have he1 : exact_strike a < 360 := by
    unfold exact_strike
    split_ifs with h
    · linarith
    · have : a < 90 := not_le.mp h
      linarith
  have hb := round_to_double_bounds (exact_strike a) he0 he1
  refine ⟨rfl, hs, ?_, ?_, ?_, he0, he1, ?_⟩
  · rw [hs]
    exact hb.1
  · rw [hs]
    exact hb.2.1
  · rw [hs]
    exact hb.2.2
  · unfold exact_strike
    split_ifs with h
    · have hf : ⌊(a - 90) / 360⌋ = 0 := by
        rw [Int.floor_eq_iff]
        constructor
        · have : (0 : Dbl) ≤ a - 90 := by linarith
          simpa using div_nonneg this (by norm_num : (0 : Dbl) ≤ 360)
        · rw [div_lt_iff₀ (by norm_num)]
          norm_num
          linarith
      rw [hf]
      simp
    · have h90 : a < 90 := not_le.mp h
      have hf : ⌊(a - 90) / 360⌋ = -1 := by
        rw [Int.floor_eq_iff]
        constructor
        · rw [le_div_iff₀ (by norm_num)]
          norm_num
          linarith
        · rw [div_lt_iff₀ (by norm_num)]
          norm_num
          linarith
      rw [hf]
      norm_num
      ring

/-- Witness of C20: the azimuth 45 gives the strike 315. -/
theorem azimuth_strike_rounded_witness :
    (0 : Dbl) ≤ 45 ∧ (45 : Dbl) < 360 ∧ strike_of_azimuth 45 = 315 ∧
      AddPlanarConstraintwAzimuthDipPolarity solved_state 1 2 3 45 30 1 =
        AddPlanarConstraintwStrikeDipPolarity solved_state 1 2 3 (strike_of_azimuth 45) 30 1 ∧
      strike_of_azimuth 45 ≤ 360 :=
  have h := azimuth_strike_rounded solved_state 1 2 3 45 30 1 (by norm_num) (by norm_num)
  ⟨by norm_num, by norm_num, by decide!, h.1, h.2.2.2.1⟩

/-! ## Adding a single constraint -/

/-- C21. On a state with a method each of AddInterfaceConstraint,
AddPlanarConstraintwNormal, AddTangentConstraint and AddInequalityConstraint
returns; the list of its category is then the old list with one element at
the end that carries the given coordinates and payload, the lists of the
three other categories are as before, the use flag of the category is set
(no other parameter of the method changes), `constraints_changed_` is set and
`evaluation_completed_` is clear; no other member of the object changes. On
a state without a method each of the four throws grbf_method_is_null and
leaves the state as it was. -/
theorem add_touches_own_category (s : Surfe_API) (x y z p q r : Dbl) :
    (∀ m, s.method_ = some m →
      (∃ m', AddInterfaceConstraint s x y z p =
          { result := .returned ()
            state := { s with method_ := some m'
                              constraints_changed_ := true
                              evaluation_completed_ := false } } ∧
        m'.constraints.itrface = m.constraints.itrface ++ [{ x := x, y := y, z := z, level := p }] ∧
        m'.constraints.inequality = m.constraints.inequality ∧
        m'.constraints.planar = m.constraints.planar ∧
        m'.constraints.tangent = m.constraints.tangent ∧
        m'.ui_parameters = { m.ui_parameters with use_interface := true }) ∧
      (∃ m', AddPlanarConstraintwNormal s x y z p q r =
          { result := .returned ()
            state := { s with method_ := some m'
                              constraints_changed_ := true
                              evaluation_completed_ := false } } ∧
        m'.constraints.planar =
          m.constraints.planar ++ [{ x := x, y := y, z := z, a := p, b := q, c := r }] ∧
        m'.constraints.itrface = m.constraints.itrface ∧
        m'.constraints.inequality = m.constraints.inequality ∧
        m'.constraints.tangent = m.constraints.tangent ∧
        m'.ui_parameters = { m.ui_parameters with use_planar := true }) ∧
      (∃ m', AddTangentConstraint s x y z p q r =
          { result := .returned ()
            state := { s with method_ := some m'
                              constraints_changed_ := true
                              evaluation_completed_ := false } } ∧
        m'.constraints.tangent =
          m.constraints.tangent ++ [{ x := x, y := y, z := z, tx := p, ty := q, tz := r }] ∧
        m'.constraints.itrface = m.constraints.itrface ∧
        m'.constraints.inequality = m.constraints.inequality ∧
        m'.constraints.planar = m.constraints.planar ∧
        m'.ui_parameters = { m.ui_parameters with use_tangent := true }) ∧
      (∃ m', AddInequalityConstraint s x y z p =
          { result := .returned ()
            state := { s with method_ := some m'
                              constraints_changed_ := true
                              evaluation_completed_ := false } } ∧
        m'.constraints.inequality =
          m.constraints.inequality ++ [{ x := x, y := y, z := z, level := p }] ∧
        m'.constraints.itrface = m.constraints.itrface ∧
        m'.constraints.planar = m.constraints.planar ∧
        m'.constraints.tangent = m.constraints.tangent ∧
        m'.ui_parameters = { m.ui_parameters with use_inequality := true })) ∧
    (s.method_ = none →
      AddInterfaceConstraint s x y z p =
        { result := .threw (.plain .grbf_method_is_null), state := s } ∧
      AddPlanarConstraintwNormal s x y z p q r =
        { result := .threw (.plain .grbf_method_is_null), state := s } ∧
      AddTangentConstraint s x y z p q r =
        { result := .threw (.plain .grbf_method_is_null), state := s } ∧
      AddInequalityConstraint s x y z p =
        { result := .threw (.plain .grbf_method_is_null), state := s }) ∧
    ((AddTangentConstraint one_constraint_state 1 1 1 0 0 1).state.method_.map fun m =>
        (m.constraints, m.ui_parameters.use_interface, m.ui_parameters.use_inequality,
          m.ui_parameters.use_planar, m.ui_parameters.use_tangent)) =
      some ({ itrface := [{ x := 1, y := 2, z := 3, level := 7 }]
              inequality := [{ x := 4, y := 5, z := 6, level := 8 }]
              planar := []
              tangent := [{ x := 1, y := 1, z := 1, tx := 0, ty := 0, tz := 1 }] },
            true, true, false, true) := by
  refine ⟨?_, ?_, rfl⟩
  · intro m hm
    refine ⟨?_, ?_, ?_, ?_⟩
    · simp only [AddInterfaceConstraint, add_constraint, hm]
      exact ⟨_, rfl, rfl, rfl, rfl, rfl, rfl⟩
    · simp only [AddPlanarConstraintwNormal, add_constraint, hm]
      exact ⟨_, rfl, rfl, rfl, rfl, rfl, rfl⟩
    · simp only [AddTangentConstraint, add_constraint, hm]
      exact ⟨_, rfl, rfl, rfl, rfl, rfl, rfl⟩
    · simp only [AddInequalityConstraint, add_constraint, hm]
      exact ⟨_, rfl, rfl, rfl, rfl, rfl, rfl⟩
  · intro hm
    simp only [AddInterfaceConstraint, AddPlanarConstraintwNormal, AddTangentConstraint,
      AddInequalityConstraint, add_constraint, hm]
    exact ⟨trivial, trivial, trivial, trivial⟩

/-! ## A reload replaces category by category -/

/-- When a sequence inside the try block ends without an exception, its first
part did, and the second part ran on the object the first left. -/
theorem andThen_returns (st : LoadState) (f : GRBF_Modelling_Methods → LoadState)
    (h : (st.andThen f).thrown = none) :
    st.thrown = none ∧ st.andThen f = f st.method := by
  unfold LoadState.andThen at h ⊢
  cases ht : st.thrown with
  | none => exact ⟨rfl, rfl⟩
  | some e =>
    rw [ht] at h
    simp only at h
    rw [ht] at h
    cases h

/-- The interface block when it ends without an exception: the three other
categories and their use flags are as before; with no file name the object
is untouched, with one the list is what the selected reader returned and the
use flag is set. -/
theorem load_interface_spec (C : Collaborators) (input : InputImpl) (m : GRBF_Modelling_Methods)
    (h : (load_interface C input m).thrown = none) :
    (load_interface C input m).method.constraints.inequality = m.constraints.inequality ∧
    (load_interface C input m).method.constraints.planar = m.constraints.planar ∧
    (load_interface C input m).method.constraints.tangent = m.constraints.tangent ∧
    (load_interface C input m).method.ui_parameters.use_inequality =
      m.ui_parameters.use_inequality ∧
    (load_interface C input m).method.ui_parameters.use_planar = m.ui_parameters.use_planar ∧
    (load_interface C input m).method.ui_parameters.use_tangent = m.ui_parameters.use_tangent ∧
    (input.interface_file = "" → (load_interface C input m).method = m) ∧
    (input.interface_file ≠ "" →
      select_reader C.csv_interface C.vtk_interface
          (C.get_file_extension input.interface_file) input.interface_file =
        .records (load_interface C input m).method.constraints.itrface ∧
      (load_interface C input m).method.ui_parameters.use_interface = true) := by
  by_cases hf : input.interface_file = ""
  · simp [load_interface, hf]
  · cases hr : select_reader C.csv_interface C.vtk_interface
        (C.get_file_extension input.interface_file) input.interface_file with
    | records cs => simp [load_interface, hf, hr]
    | throws e n => simp [load_interface, hf, hr] at h

/-- The inequality block when it ends without an exception: the three other
categories and their use flags are as before; with no file name the object
is untouched, with one the list is what the selected reader returned and the
use flag is set. -/
theorem load_inequality_spec (C : Collaborators) (input : InputImpl) (m : GRBF_Modelling_Methods)
    (h : (load_inequality C input m).thrown = none) :
    (load_inequality C input m).method.constraints.itrface = m.constraints.itrface ∧
    (load_inequality C input m).method.constraints.planar = m.constraints.planar ∧
    (load_inequality C input m).method.constraints.tangent = m.constraints.tangent ∧
    (load_inequality C input m).method.ui_parameters.use_interface = m.ui_parameters.use_interface ∧
    (load_inequality C input m).method.ui_parameters.use_planar = m.ui_parameters.use_planar ∧
    (load_inequality C input m).method.ui_parameters.use_tangent = m.ui_parameters.use_tangent ∧
    (input.inequality_file = "" → (load_inequality C input m).method = m) ∧
    (input.inequality_file ≠ "" →
      select_reader C.csv_inequality C.vtk_inequality
          (C.get_file_extension input.inequality_file) input.inequality_file =
        .records (load_inequality C input m).method.constraints.inequality ∧
      (load_inequality C input m).method.ui_parameters.use_inequality = true) := by
  by_cases hf : input.inequality_file = ""
  · simp [load_inequality, hf]
  · cases hr : select_reader C.csv_inequality C.vtk_inequality
        (C.get_file_extension input.inequality_file) input.inequality_file with
    | records cs => simp [load_inequality, hf, hr]
    | throws e n => simp [load_inequality, hf, hr] at h

/-- The planar block when it ends without an exception: the three other
categories and their use flags are as before; with no file name the object
is untouched, with one the list is what the selected reader returned and the
use flag is set. -/
theorem load_planar_spec (C : Collaborators) (input : InputImpl) (m : GRBF_Modelling_Methods)
    (h : (load_planar C input m).thrown = none) :
    (load_planar C input m).method.constraints.itrface = m.constraints.itrface ∧
    (load_planar C input m).method.constraints.inequality = m.constraints.inequality ∧
    (load_planar C input m).method.constraints.tangent = m.constraints.tangent ∧
    (load_planar C input m).method.ui_parameters.use_interface = m.ui_parameters.use_interface ∧
    (load_planar C input m).method.ui_parameters.use_inequality = m.ui_parameters.use_inequality ∧
    (load_planar C input m).method.ui_parameters.use_tangent = m.ui_parameters.use_tangent ∧
    (input.planar_file = "" → (load_planar C input m).method = m) ∧
    (input.planar_file ≠ "" →
      select_reader C.csv_planar C.vtk_planar
          (C.get_file_extension input.planar_file) input.planar_file =
        .records (load_planar C input m).method.constraints.planar ∧
      (load_planar C input m).method.ui_parameters.use_planar = true) := by
  by_cases hf : input.planar_file = ""
  · simp [load_planar, hf]
  · cases hr : select_reader C.csv_planar C.vtk_planar
        (C.get_file_extension input.planar_file) input.planar_file with
    | records cs => simp [load_planar, hf, hr]
    | throws e n => simp [load_planar, hf, hr] at h

/-- The tangent block when it ends without an exception: the three other
categories and their use flags are as before; with no file name the object
is untouched, with one the list is what the reader selected by the extension of the
planar file name returned and the use flag is set. -/
theorem load_tangent_spec (C : Collaborators) (input : InputImpl) (m : GRBF_Modelling_Methods)
    (h : (load_tangent C input m).thrown = none) :
    (load_tangent C input m).method.constraints.itrface = m.constraints.itrface ∧
    (load_tangent C input m).method.constraints.inequality = m.constraints.inequality ∧
    (load_tangent C input m).method.constraints.planar = m.constraints.planar ∧
    (load_tangent C input m).method.ui_parameters.use_interface = m.ui_parameters.use_interface ∧
    (load_tangent C input m).method.ui_parameters.use_inequality = m.ui_parameters.use_inequality ∧
    (load_tangent C input m).method.ui_parameters.use_planar = m.ui_parameters.use_planar ∧
    (input.tangent_file = "" → (load_tangent C input m).method = m) ∧
    (input.tangent_file ≠ "" →
      select_reader C.csv_tangent C.vtk_tangent
          (C.get_file_extension input.planar_file) input.tangent_file =
        .records (load_tangent C input m).method.constraints.tangent ∧
      (load_tangent C input m).method.ui_parameters.use_tangent = true) := by
  by_cases hf : input.tangent_file = ""
  · simp [load_tangent, hf]
  · cases hr : select_reader C.csv_tangent C.vtk_tangent
        (C.get_file_extension input.planar_file) input.tangent_file with
    | records cs => simp [load_tangent, hf, hr]
    | throws e n => simp [load_tangent, hf, hr] at h

/-- When the try block ends without an exception each of its four blocks did,
each running on the object the one before left. -/
theorem load_all_returns (C : Collaborators) (input : InputImpl) (m : GRBF_Modelling_Methods)
    (h : (load_all C input m).thrown = none) :
    (load_interface C input m).thrown = none ∧
    (load_inequality C input (load_interface C input m).method).thrown = none ∧
    (load_planar C input
      (load_inequality C input (load_interface C input m).method).method).thrown = none ∧
    load_all C input m =
      load_tangent C input
        (load_planar C input
          (load_inequality C input (load_interface C input m).method).method).method := by
  unfold load_all at h ⊢
  obtain ⟨h3, e3⟩ := andThen_returns _ _ h
  obtain ⟨h2, e2⟩ := andThen_returns _ _ h3
  obtain ⟨h1, e1⟩ := andThen_returns _ _ h2
  rw [e1] at h2 e2 h3 e3 ⊢
  rw [e2] at h3 e3 ⊢
  exact ⟨h1, h2, h3, e3⟩

/-- C22 as stated fails for a file name whose extension is none of "csv",
"vtp", "vtk". The state holds the interface constraint (1, 2, 3, level 7)
and the interface file name "notes.txt", of extension "txt"; every reader
returns. build_constraints_from_input_files returns, no reader having been
called for the interface category: its list is empty, which is the record
list of neither interface reader, the constraint added before is gone and
the use flag is set. The inequality category, which has no file, keeps its
constraint. -/
theorem unknown_extension_empties_category :
    text_file_collaborators.get_file_extension "notes.txt" = "txt" ∧
      (SetInterfaceDataFile one_constraint_state "notes.txt").state.input_.interface_file =
        "notes.txt" ∧
      ((SetInterfaceDataFile one_constraint_state "notes.txt").state.method_.map fun m =>
        (m.constraints.itrface,
          (load_all text_file_collaborators
            (SetInterfaceDataFile one_constraint_state "notes.txt").state.input_ m).thrown)) =
        some ([{ x := 1, y := 2, z := 3, level := 7 }], none) ∧
      (build_constraints_from_input_files text_file_collaborators
        (SetInterfaceDataFile one_constraint_state "notes.txt").state).result = .returned () ∧
      ((build_constraints_from_input_files text_file_collaborators
          (SetInterfaceDataFile one_constraint_state "notes.txt").state).state.method_.map fun m =>
        (m.constraints.itrface, m.ui_parameters.use_interface, m.constraints.inequality)) =
        some ([], true, [{ x := 4, y := 5, z := 6, level := 8 }]) ∧
      text_file_collaborators.csv_interface "notes.txt" =
        .records [{ x := 9, y := 9, z := 9, level := 1 }] ∧
      text_file_collaborators.vtk_interface "notes.txt" =
        .records [{ x := 9, y := 9, z := 9, level := 2 }] := by
  refine ⟨?_, ?_, ?_, ?_, ?_, ?_, ?_⟩ <;> rfl

/-- C22, as the code has it. On a state with a method on which no reader
fails, build_constraints_from_input_files returns and, in the method it
leaves: a category whose file name is empty keeps its list and its use flag;
the interface, inequality and planar category, when its file name is not
empty, has its use flag set and its list replaced by what `select_reader`
gives for the extension of its own file name, that is the records of the CSV
reader for "csv", of the VTK reader for "vtp" or "vtk", and the empty list,
no reader being called, for any other extension; the tangent category, when
its file name is not empty, has its use flag set and, if the planar file name
has the extension of the tangent file name, its list replaced in the same
way. The run inside ComputeInterpolant, made when `constraint_files_changed_`
is set, is this function on the same state, the solve continuing from the
state it leaves. -/
theorem reload_replaces_per_category (C : Collaborators) (s : Surfe_API)
    (m : GRBF_Modelling_Methods) (hm : s.method_ = some m)
    (hok : (load_all C s.input_ m).thrown = none) :
    ∃ m', build_constraints_from_input_files C s =
        { result := .returned ()
          state := { s with method_ := some m'
                            constraint_files_changed_ := false
                            constraints_changed_ := true } } ∧
      (s.input_.interface_file = "" →
        m'.constraints.itrface = m.constraints.itrface ∧
        m'.ui_parameters.use_interface = m.ui_parameters.use_interface) ∧
      (s.input_.interface_file ≠ "" →
        select_reader C.csv_interface C.vtk_interface
            (C.get_file_extension s.input_.interface_file) s.input_.interface_file =
          .records m'.constraints.itrface ∧
        m'.ui_parameters.use_interface = true) ∧
      (s.input_.inequality_file = "" →
        m'.constraints.inequality = m.constraints.inequality ∧
        m'.ui_parameters.use_inequality = m.ui_parameters.use_inequality) ∧
      (s.input_.inequality_file ≠ "" →
        select_reader C.csv_inequality C.vtk_inequality
            (C.get_file_extension s.input_.inequality_file) s.input_.inequality_file =
          .records m'.constraints.inequality ∧
        m'.ui_parameters.use_inequality = true) ∧
      (s.input_.planar_file = "" →
        m'.constraints.planar = m.constraints.planar ∧
        m'.ui_parameters.use_planar = m.ui_parameters.use_planar) ∧
      (s.input_.planar_file ≠ "" →
        select_reader C.csv_planar C.vtk_planar
            (C.get_file_extension s.input_.planar_file) s.input_.planar_file =
          .records m'.constraints.planar ∧
        m'.ui_parameters.use_planar = true) ∧
      (s.input_.tangent_file = "" →
        m'.constraints.tangent = m.constraints.tangent ∧
        m'.ui_parameters.use_tangent = m.ui_parameters.use_tangent) ∧
      (s.input_.tangent_file ≠ "" →
        m'.ui_parameters.use_tangent = true ∧
        (C.get_file_extension s.input_.planar_file =
            C.get_file_extension s.input_.tangent_file →
          select_reader C.csv_tangent C.vtk_tangent
              (C.get_file_extension s.input_.tangent_file) s.input_.tangent_file =
            .records m'.constraints.tangent)) ∧
      (∀ (α : Type) (csv vtk : String → ReaderResult α) (extension file : String),
        (extension = "csv" → select_reader csv vtk extension file = csv file) ∧
        (extension = "vtp" ∨ extension = "vtk" → select_reader csv vtk extension file = vtk file) ∧
        (extension ≠ "csv" → extension ≠ "vtp" → extension ≠ "vtk" →
          select_reader csv vtk extension file = .records [])) ∧
      (s.constraint_files_changed_ = true →
        ComputeInterpolant C s =
          solve_stages C (build_constraints_from_input_files C s).state) := by
  have hb : build_constraints_from_input_files C s =
      { result := .returned ()
        state := { s with method_ := some (load_all C s.input_ m).method
                          constraint_files_changed_ := false
                          constraints_changed_ := true } } := by
    simp only [build_constraints_from_input_files, hm, hok]
  obtain ⟨h1, h2, h3, e4⟩ := load_all_returns C s.input_ m hok
  have h4 := hok
  rw [e4] at h4
  obtain ⟨a_ineq, a_pl, a_tg, a_uineq, a_upl, a_utg, a_emp, a_ne⟩ :=
    load_interface_spec C s.input_ m h1
  obtain ⟨b_itr, b_pl, b_tg, b_uitr, b_upl, b_utg, b_emp, b_ne⟩ :=
    load_inequality_spec C s.input_ _ h2
  obtain ⟨c_itr, c_ineq, c_tg, c_uitr, c_uineq, c_utg, c_emp, c_ne⟩ :=
    load_planar_spec C s.input_ _ h3
  obtain ⟨d_itr, d_ineq, d_pl, d_uitr, d_uineq, d_upl, d_emp, d_ne⟩ :=
    load_tangent_spec C s.input_ _ h4
  refine ⟨(load_all C s.input_ m).method, hb, ?_, ?_, ?_, ?_, ?_, ?_, ?_, ?_, ?_, ?_⟩
  · intro hf
    rw [e4]
    constructor
    · rw [d_itr, c_itr, b_itr, a_emp hf]
    · rw [d_uitr, c_uitr, b_uitr, a_emp hf]
  · intro hf
    rw [e4, d_itr, c_itr, b_itr, d_uitr, c_uitr, b_uitr]
    exact a_ne hf
  · intro hf
    rw [e4]
    constructor
    · rw [d_ineq, c_ineq, b_emp hf, a_ineq]
    · rw [d_uineq, c_uineq, b_emp hf, a_uineq]
  · intro hf
    rw [e4, d_ineq, c_ineq, d_uineq, c_uineq]
    exact b_ne hf
  · intro hf
    rw [e4]
    constructor
    · rw [d_pl, c_emp hf, b_pl, a_pl]
    · rw [d_upl, c_emp hf, b_upl, a_upl]
  · intro hf
    rw [e4, d_pl, d_upl]
    exact c_ne hf
  · intro hf
    rw [e4]
    constructor
    · rw [d_emp hf, c_tg, b_tg, a_tg]
    · rw [d_emp hf, c_utg, b_utg, a_utg]
  · intro hf
    rw [e4]
    refine ⟨(d_ne hf).2, fun hext => ?_⟩
    rw [← hext]
    exact (d_ne hf).1
  · intro α csv vtk extension file
    refine ⟨?_, ?_, ?_⟩
    · intro h
      simp only [select_reader, h, if_true]
    · intro h
      rcases h with h | h <;> subst h <;> simp [select_reader]
    · intro ha hb' hc
      simp only [select_reader, ha, hb', hc, or_self, if_false]
  · intro hf
    rw [hb]
    simp only [ComputeInterpolant, hm, hf, if_true, hb]

/-- Witness of C22: the solved sample state given the interface file "a.csv",
with readers that return; the interface list is then the record of the CSV
reader. -/
theorem reload_replaces_per_category_witness :
    ∃ m', (build_constraints_from_input_files text_file_collaborators
          (SetInterfaceDataFile solved_state "a.csv").state).state.method_ = some m' ∧
      text_file_collaborators.csv_interface "a.csv" = .records m'.constraints.itrface ∧
      m'.constraints.itrface = [{ x := 9, y := 9, z := 9, level := 1 }] ∧
      m'.ui_parameters.use_interface = true := by
  obtain ⟨m', hb, _, hi, _⟩ := reload_replaces_per_category text_file_collaborators
    (SetInterfaceDataFile solved_state "a.csv").state
    { new_method sample_parameters with solution := some { weights := [1], coefficients := [] } }
    rfl rfl
  have h := hi (by decide)
  refine ⟨m', by rw [hb], h.1, ?_, h.2⟩
  have e : select_reader text_file_collaborators.csv_interface
      text_file_collaborators.vtk_interface
      (text_file_collaborators.get_file_extension
        (SetInterfaceDataFile solved_state "a.csv").state.input_.interface_file)
      (SetInterfaceDataFile solved_state "a.csv").state.input_.interface_file =
        .records [{ x := 9, y := 9, z := 9, level := 1 }] := rfl
  exact (ReaderResult.records.inj (e.symm.trans h.1)).symm

/-! ## A zero resolution -/

/-- C23, the code at the failing inputs. Only BuildRegularGrid(padding)
guards its divisor: when the derived resolution is 0 it throws
problem_computing_grid and leaves the state as it was. The three other
overloads reach the division with a divisor 0, and the conversion of the
quotient to int is undefined: the explicit-bounds overload in every state and
for all bounds, the zmin/zmax overload in every state with a method, and
BuildRegularGrid(resolution = 0, padding) whenever the derived resolution,
the value its guard tests, is not 0. That guard also refuses
BuildRegularGrid(resolution = 1, padding = 0) when the derived resolution is
0, although the divisor is 1. -/
theorem zero_resolution_reaches_division :
    (∀ extent : Dbl, cell_count extent 0 = none) ∧
    (∀ (s : Surfe_API) (xmin xmax ymin ymax zmin zmax : Dbl),
      BuildRegularGrid_bounds s xmin xmax ymin ymax zmin zmax 0 =
        { result := .undefined, state := s }) ∧
    (∀ (C : Collaborators) (s : Surfe_API) (m : GRBF_Modelling_Methods) (zmin zmax p : Dbl),
      s.method_ = some m →
      BuildRegularGrid_z C s zmin zmax 0 p = { result := .undefined, state := s }) ∧
    (∀ (C : Collaborators) (s : Surfe_API) (spatial : SpatialParameters) (p : Dbl),
      compute_constraint_bounds_and_resolution C s = .ok spatial → spatial.resolution ≠ 0 →
      BuildRegularGrid_resolution C s 0 p = { result := .undefined, state := s }) ∧
    (∀ (C : Collaborators) (s : Surfe_API) (spatial : SpatialParameters) (p : Dbl),
      compute_constraint_bounds_and_resolution C s = .ok spatial → spatial.resolution = 0 →
      BuildRegularGrid_padding C s p =
        { result := .threw (.plain .problem_computing_grid), state := s }) ∧
    BuildRegularGrid_bounds solved_state 0 10 0 10 0 10 0 =
      { result := .undefined, state := solved_state } ∧
    BuildRegularGrid_z square_bounds_collaborators solved_state 0 10 0 0 =
      { result := .undefined, state := solved_state } ∧
    BuildRegularGrid_resolution cube_box_collaborators solved_state 0 0 =
      { result := .undefined, state := solved_state } ∧
    BuildRegularGrid_padding zero_resolution_collaborators solved_state 0 =
      { result := .threw (.plain .problem_computing_grid), state := solved_state } ∧
    BuildRegularGrid_resolution zero_resolution_collaborators solved_state 1 0 =
      { result := .threw (.plain .problem_computing_grid), state := solved_state } := by
  have hc : ∀ extent : Dbl, cell_count extent 0 = none := by
    intro extent
    simp only [cell_count, if_true]
  refine ⟨hc, ?_, ?_, ?_, ?_, ?_, ?_, ?_, ?_, ?_⟩
  · intro s xmin xmax ymin ymax zmin zmax
    simp only [BuildRegularGrid_bounds, hc]
  · intro C s m zmin zmax p hm
    simp only [BuildRegularGrid_z, hm, hc]
  · intro C s spatial p hs hr
    simp only [BuildRegularGrid_resolution, hs, grid_from_spatial, hr, if_false, hc]
  · intro C s spatial p hs hr
    simp only [BuildRegularGrid_padding, hs, grid_from_spatial, hr, if_true]
  · decide!
  · decide!
  · decide!
  · decide!
  · decide!

end Surfe
